import Mathlib

/-!
# Verification of the Decision Coordination & Execution Pipeline

Shallow embedding of the core of the `oneM2M-Hackathon25` smart-building
backend: the conflict-resolution engine (`decision_coordinator.py`,
`ConflictResolver`), the SLO evaluation engine (`slo_service.py`,
`SLOEvaluationEngine`), the plan scorer (`DecisionPlanScorer`), the
multi-agent coordinator (`MultiAgentCoordinator`), and the execution
engine (`execution_engine.py`).

Modelling conventions:
* Python numbers (ints and floats) are modelled as `ℚ`.  All numeric
  constants in the source are decimal, hence exactly representable.
  The single exception is the float power `** 1.5` in the CO2 evaluator,
  which is irrational; it is modelled by an explicit function parameter
  `pow15 : ℚ → ℚ` threaded through the SLO engine.  Theorems that need a
  property of it (only that it maps nonnegatives to nonnegatives, which
  holds of the real `x ↦ x ** 1.5` on its actual domain) take that
  property as a hypothesis.
* Python dicts read with `.get(key, default)` are modelled as structures
  with `Option`-valued fields (`none` = key absent) read with `getD`,
  or, for the open-keyed sensor dict, as an association list.
* Python dict iteration order is insertion order; grouping dicts are
  modelled as insertion-ordered association lists built by a fold.
* Code that can raise (`ZeroDivisionError` from an unguarded division)
  is modelled with `Option`, `none` being the raised exception.
* Free-text presentation strings that the source builds only for display
  (recommendation sentences, `expected`/`actual` renderings, ISO
  timestamps) influence no control flow and no claim; they are elided
  from result records.
-/

namespace BuildSense

/-! ## Data model: agent decisions and device actions

From `decision_coordinator.py` and the agent output format in
`llm_agents.py`.  A device action is a dict with keys `device_id`,
`action` and a `parameters` sub-dict; the parameter keys actually read by
the pipeline are `brightness`, `temperature` and `ventilation_level`
(the last influences only elided response payloads). -/

structure DeviceAction where
  device_id : Option String
  action : Option String
  brightness : Option ℚ := none
  temperature : Option ℚ := none
  deriving DecidableEq, Repr

/-- One agent's decision dict: `agent_type` (the enum's `.value` string),
`priority`, the proposed `decisions` list, `confidence`, `reasoning`.
`Option` fields model possibly-missing dict keys read with `.get`. -/
structure AgentDecision where
  agent_type : Option String
  priority : Option ℚ := none
  decisions : List DeviceAction := []
  confidence : Option ℚ := none
  reasoning : String := ""
  deriving DecidableEq, Repr

/-- `AgentType` enum from `agents/agent_config.py`. -/
inductive AgentType where
  | SECURITY | COMFORT | ENERGY_EFFICIENCY | MAINTENANCE
  | EMERGENCY_RESPONSE | ENVIRONMENTAL | OCCUPANCY
  deriving DecidableEq, Repr

/-- The `.value` of each `AgentType` enum member. -/
def AgentType.value : AgentType → String
  | .SECURITY => "security"
  | .COMFORT => "comfort"
  | .ENERGY_EFFICIENCY => "energy_efficiency"
  | .MAINTENANCE => "maintenance"
  | .EMERGENCY_RESPONSE => "emergency_response"
  | .ENVIRONMENTAL => "environmental"
  | .OCCUPANCY => "occupancy"

/-- Python `str(x)` for an optional string, as used in f-string keys:
`None` renders as `"None"`. -/
def pyStr : Option String → String
  | none => "None"
  | some s => s

/-! ## Insertion-ordered grouping (Python dict semantics)

`_priority_weighted_resolution` and `_majority_vote_resolution` build
dicts keyed by device (resp. vote key) and then iterate them; Python
dicts iterate in key-insertion order, which this association-list fold
reproduces exactly. -/

/-- Append `v` to the group of key `k`, creating the group at the end if
the key is new (Python `dict` insertion semantics). -/
def groupInsert {K V : Type} [DecidableEq K] (k : K) (v : V) :
    List (K × List V) → List (K × List V)
  | [] => [(k, [v])]
  | (k', vs) :: rest =>
      if k' = k then (k', vs ++ [v]) :: rest else (k', vs) :: groupInsert k v rest

/-- Group a key/value stream in encounter order. -/
def groupFold {K V : Type} [DecidableEq K] (kvs : List (K × V)) : List (K × List V) :=
  kvs.foldl (fun acc p => groupInsert p.1 p.2 acc) []

/-- All values grouped under key `k` (empty list if the key is absent). -/
def lookupGroup {K V : Type} [DecidableEq K] (g : List (K × List V)) (k : K) : List V :=
  match g.find? (fun p => p.1 = k) with
  | some p => p.2
  | none => []

/-! ## ConflictResolver (`decision_coordinator.py`) -/

/-- Entry of the per-device candidate lists in
`_priority_weighted_resolution`: `{'action': …, 'agent': …,
'priority': …, 'reasoning': …}`. -/
structure Candidate where
  action : DeviceAction
  agent : Option String
  priority : ℚ
  reasoning : String
  deriving DecidableEq, Repr

/-- Conflict-report entry produced by `_priority_weighted_resolution`. -/
structure ConflictInfo where
  device_id : Option String
  conflicting_agents : List (Option String)
  winner : Option String
  resolution_method : String
  deriving DecidableEq, Repr

/-- Return value of every resolution strategy. -/
structure Resolution where
  resolved_actions : List DeviceAction
  conflicts : List ConflictInfo
  resolution_method : String
  deriving DecidableEq, Repr

/-- Python `max(xs, key=f)`: first maximal element (replaces the running
maximum only on strict increase). -/
def pyMaxBy {α : Type} (f : α → ℚ) (x : α) : List α → α
  | [] => x
  | y :: ys => if f x < f y then pyMaxBy f y ys else pyMaxBy f x ys

/-- The `(device_id, candidate)` stream that
`_priority_weighted_resolution` feeds into its grouping dict, in
iteration order. -/
def candidateStream (agent_decisions : List AgentDecision) :
    List (Option String × Candidate) :=
  agent_decisions.flatMap fun decision =>
    decision.decisions.map fun action =>
      (action.device_id,
       { action := action
         agent := decision.agent_type
         priority := decision.priority.getD (1/2)
         reasoning := decision.reasoning })

/-- Resolve one device group: a single candidate passes through, several
candidates go to the highest-priority agent (cf. source lines 92–107). -/
def resolveDeviceGroup (device_id : Option String) (conflicts : List Candidate) :
    List DeviceAction × List ConflictInfo :=
  match conflicts with
  | [c] => ([c.action], [])
  | c :: cs =>
      let winner := pyMaxBy (fun x => x.priority) c cs
      ([winner.action],
       [{ device_id := device_id
          conflicting_agents := conflicts.map (fun x => x.agent)
          winner := winner.agent
          resolution_method := "priority_weighted" }])
  | [] => ([], [])

/-- `ConflictResolver._priority_weighted_resolution`. -/
def priority_weighted_resolution (agent_decisions : List AgentDecision) : Resolution :=
  let device_decisions := groupFold (candidateStream agent_decisions)
  let pairs := device_decisions.map fun g => resolveDeviceGroup g.1 g.2
  { resolved_actions := pairs.flatMap Prod.fst
    conflicts := pairs.flatMap Prod.snd
    resolution_method := "priority_weighted" }

/-- Vote-tally entry of `_majority_vote_resolution`; `action` is the
first action encountered for the key. -/
structure VoteData where
  action : DeviceAction
  votes : Nat
  voters : List (Option String)
  deriving DecidableEq, Repr

/-- The vote key `f"{device_id}_{action_type}"`. -/
def voteKey (a : DeviceAction) : String :=
  pyStr a.device_id ++ "_" ++ pyStr a.action

/-- Tally votes in encounter order (dict keyed by `voteKey`; the stored
`action` is set only when the key is first created). -/
def tallyVotes (stream : List (Option String × DeviceAction)) :
    List (String × VoteData) :=
  stream.foldl (fun acc p =>
    let k := voteKey p.2
    match acc.find? (fun q => q.1 = k) with
    | some _ =>
        acc.map fun q =>
          if q.1 = k then
            (q.1, { q.2 with votes := q.2.votes + 1, voters := q.2.voters ++ [p.1] })
          else q
    | none => acc ++ [(k, { action := p.2, votes := 1, voters := [p.1] })]) []

/-- `ConflictResolver._majority_vote_resolution`: keep only actions with
at least 2 votes (fixed threshold). -/
def majority_vote_resolution (agent_decisions : List AgentDecision) : Resolution :=
  let stream := agent_decisions.flatMap fun decision =>
    decision.decisions.map fun action => (decision.agent_type, action)
  let action_votes := tallyVotes stream
  { resolved_actions :=
      (action_votes.filter (fun q => 2 ≤ q.2.votes)).map (fun q => q.2.action)
    conflicts := []
    resolution_method := "majority_vote" }

/-- The fixed safety ordering of `_safety_first_resolution`
(`priority_order`, built from `AgentType` values). -/
def priority_order : List String :=
  [AgentType.EMERGENCY_RESPONSE.value, AgentType.SECURITY.value,
   AgentType.ENVIRONMENTAL.value, AgentType.COMFORT.value,
   AgentType.OCCUPANCY.value, AgentType.ENERGY_EFFICIENCY.value]

/-- `_priority_key`: index in `priority_order`, or its length when the
agent type is absent (the `ValueError` branch, also taken for a missing
`agent_type` key). -/
def safetyIndex (agent_type : Option String) : Nat :=
  match agent_type with
  | none => priority_order.length
  | some s =>
      match priority_order.findIdx? (fun t => t = s) with
      | some i => i
      | none => priority_order.length

/-- Stable insertion step: keep `y` in front of `x` while `keep y x`
holds.  Instantiated so that it reproduces Python's stable `sorted` /
`list.sort`. -/
def insertStable {α : Type} (keep : α → α → Bool) (x : α) : List α → List α
  | [] => [x]
  | y :: ys => if keep y x then y :: insertStable keep x ys else x :: y :: ys

/-- Stable sort (insertion sort, processing elements in list order);
with `keep y x = (key y ≤ key x)` this is Python's stable ascending
`sorted(key=…)`, and with `keep y x = (key x ≤ key y)` the stable
descending `sort(key=…, reverse=True)`. -/
def stableSortBy {α : Type} (keep : α → α → Bool) (l : List α) : List α :=
  l.foldl (fun acc x => insertStable keep x acc) []

/-- The claim-and-assign fold of `_safety_first_resolution`: walk the
actions of the safety-sorted decisions, assigning each device to its
first claimant (only the keys of `device_assignments` influence
behaviour; the stored agent value is never read). -/
def claimFold : List DeviceAction → List (Option String) → List DeviceAction →
    List (Option String) × List DeviceAction
  | [], assigned, resolved => (assigned, resolved)
  | a :: rest, assigned, resolved =>
      if a.device_id ∈ assigned then claimFold rest assigned resolved
      else claimFold rest (assigned ++ [a.device_id]) (resolved ++ [a])

/-- `ConflictResolver._safety_first_resolution`. -/
def safety_first_resolution (agent_decisions : List AgentDecision) : Resolution :=
  let sorted_decisions :=
    stableSortBy (fun y x => safetyIndex y.agent_type ≤ safetyIndex x.agent_type)
      agent_decisions
  let stream := sorted_decisions.flatMap (fun d => d.decisions)
  { resolved_actions := (claimFold stream [] []).2
    conflicts := []
    resolution_method := "safety_first" }

/-- Actions of the decisions `_energy_balance_resolution` classifies as
energy (`agent_type == 'ENERGY_EFFICIENCY'`, a case-sensitive string
comparison). -/
def energyActions (agent_decisions : List AgentDecision) : List DeviceAction :=
  (agent_decisions.filter (fun d => d.agent_type = some "ENERGY_EFFICIENCY")).flatMap
    (fun d => d.decisions)

/-- Actions of all other decisions. -/
def otherActions (agent_decisions : List AgentDecision) : List DeviceAction :=
  (agent_decisions.filter (fun d => ¬ d.agent_type = some "ENERGY_EFFICIENCY")).flatMap
    (fun d => d.decisions)

/-- `ConflictResolver._energy_balance_resolution`: all non-energy actions
pass through; energy actions are added only for unclaimed devices. -/
def energy_balance_resolution (agent_decisions : List AgentDecision) : Resolution :=
  let other_decisions := otherActions agent_decisions
  let used_devices := other_decisions.map (fun a => a.device_id)
  { resolved_actions :=
      other_decisions ++
        (energyActions agent_decisions).filter (fun a => a.device_id ∉ used_devices)
    conflicts := []
    resolution_method := "energy_balance" }

/-- `ConflictResolver.resolve_conflicts`: dispatch on the strategy name
(the keys of `resolution_strategies`); any other name falls back to
priority-weighted resolution. -/
def resolve_conflicts (agent_decisions : List AgentDecision)
    (strategy : String) : Resolution :=
  if strategy = "priority_weighted" then priority_weighted_resolution agent_decisions
  else if strategy = "majority_vote" then majority_vote_resolution agent_decisions
  else if strategy = "safety_first" then safety_first_resolution agent_decisions
  else if strategy = "energy_balance" then energy_balance_resolution agent_decisions
  else priority_weighted_resolution agent_decisions

/-! ## SLO evaluation engine (`slo_service.py`) -/

/-- The open-keyed sensor dict (`sensor_data`); an association list so
that the generic evaluator's `sensor_data.get(slo.metric, 0)` is
expressible for arbitrary metric names. -/
structure SensorData where
  readings : List (String × ℚ)
  deriving DecidableEq, Repr

/-- `sensor_data.get(k, d)`. -/
def SensorData.get (sd : SensorData) (k : String) (d : ℚ) : ℚ :=
  match sd.readings.find? (fun p => p.1 = k) with
  | some p => p.2
  | none => d

/-- `sensor_data[k] = v`: overwrite in place, or append if absent
(Python dict assignment). -/
def SensorData.set (sd : SensorData) (k : String) (v : ℚ) : SensorData :=
  if (sd.readings.find? (fun p => p.1 = k)).isSome then
    ⟨sd.readings.map fun p => if p.1 = k then (p.1, v) else p⟩
  else ⟨sd.readings ++ [(k, v)]⟩

/-- A device dict; `Option` fields model possibly-missing keys. -/
structure Device where
  id : Option String := none
  type : Option String := none
  status : Option String := none
  brightness : Option ℚ := none
  target_temperature : Option ℚ := none
  deriving DecidableEq, Repr

/-- The metric-specific `slo.config` dict (`config = slo.config or {}`;
a `None` config and an empty dict read identically through `.get`, so
both are the all-`none` structure). -/
structure SLOConfig where
  min_temp : Option ℚ := none
  max_temp : Option ℚ := none
  max_devices_unoccupied : Option ℚ := none
  min_lights : Option ℚ := none
  max_co2 : Option ℚ := none
  max_hvac_unoccupied : Option ℚ := none
  max_lights_unoccupied : Option ℚ := none
  min_humidity : Option ℚ := none
  max_humidity : Option ℚ := none
  required_devices : Option ℚ := none
  deriving DecidableEq, Repr

/-- The SLO record fields read by the evaluation engine. -/
structure SLO where
  name : String
  metric : String
  target_value : Option ℚ := none
  weight : ℚ
  active : Bool := true
  config : SLOConfig := {}
  deriving DecidableEq, Repr

/-- Per-SLO evaluation result (presentation-only strings elided). -/
structure SLOResult where
  slo_name : String
  metric : String
  compliance_score : ℚ
  priority : String
  deriving DecidableEq, Repr

/-- Violation entry (presentation-only strings elided). -/
structure Violation where
  slo_name : String
  severity : String
  deriving DecidableEq, Repr

/-- Per-category score dict. -/
structure CategoryScores where
  comfort : ℚ
  energy : ℚ
  security : ℚ
  environmental : ℚ
  deriving DecidableEq, Repr

/-- Return value of `evaluate_room_slos` (the `recommendations` list is
created empty and never appended to; `evaluation_time` elided). -/
structure Evaluation where
  overall_compliance : ℚ
  slo_results : List SLOResult
  violations : List Violation
  scores : CategoryScores
  deriving DecidableEq, Repr

/-- Room data is passed through the pipeline but never read by any
evaluator; kept as an opaque dict. -/
structure RoomData where
  fields : List (String × ℚ) := []
  deriving DecidableEq, Repr

/-- `SLOEvaluationEngine._evaluate_temperature_comfort`. -/
def evaluate_temperature_comfort (slo : SLO) (sensor_data : SensorData) : SLOResult :=
  let current_temp := sensor_data.get "temperature" 22
  let min_temp := slo.config.min_temp.getD 22
  let max_temp := slo.config.max_temp.getD 24
  let compliance_score :=
    if min_temp ≤ current_temp ∧ current_temp ≤ max_temp then 1
    else if current_temp < min_temp then
      max 0 (1 - (min_temp - current_temp) / 5)
    else
      max 0 (1 - (current_temp - max_temp) / 5)
  { slo_name := slo.name
    metric := slo.metric
    compliance_score := compliance_score
    priority :=
      if compliance_score < 6/10 then "high"
      else if compliance_score < 8/10 then "medium" else "low" }

/-- `SLOEvaluationEngine._evaluate_energy_efficiency`.  `none` models the
`ZeroDivisionError` raised when the unoccupied branch divides by a zero
`total_devices` (reachable only with a negative configured
`max_devices_unoccupied`). -/
def evaluate_energy_efficiency (slo : SLO) (sensor_data : SensorData)
    (devices : List Device) : Option SLOResult :=
  let occupancy := sensor_data.get "occupancy" 0
  let devices_on : ℚ := (devices.filter (fun d => d.status = some "ON")).length
  let total_devices : ℚ := devices.length
  let max_devices_unoccupied := slo.config.max_devices_unoccupied.getD 1
  let score? : Option ℚ :=
    if occupancy = 0 then
      if devices_on ≤ max_devices_unoccupied then some 1
      else if total_devices = 0 then none
      else some (max 0 (1 - (devices_on - max_devices_unoccupied) / total_devices))
    else
      let expected_efficiency := min 1 (occupancy / 5)
      let actual_efficiency := if 0 < total_devices then devices_on / total_devices else 0
      if actual_efficiency ≤ expected_efficiency + 2/10 then some 1
      else some (max 0 (1 - (actual_efficiency - expected_efficiency)))
  score?.map fun compliance_score =>
    { slo_name := slo.name
      metric := slo.metric
      compliance_score := compliance_score
      priority := if compliance_score < 7/10 then "medium" else "low" }

/-- `SLOEvaluationEngine._evaluate_security_lighting`. -/
def evaluate_security_lighting (slo : SLO) (devices : List Device) : SLOResult :=
  let lighting_devices := devices.filter (fun d => d.type = some "Lighting")
  let lights_on : ℚ := (lighting_devices.filter (fun d => d.status = some "ON")).length
  let min_lights_required := slo.config.min_lights.getD 1
  let compliance_score :=
    if min_lights_required ≤ lights_on then 1
    else if 0 < min_lights_required then lights_on / min_lights_required
    else 0
  { slo_name := slo.name
    metric := slo.metric
    compliance_score := compliance_score
    priority := if compliance_score < 5/10 then "high" else "medium" }

/-- `SLOEvaluationEngine._evaluate_air_quality_co2`; `pow15` models the
float power `x ** 1.5`. -/
def evaluate_air_quality_co2 (pow15 : ℚ → ℚ) (slo : SLO)
    (sensor_data : SensorData) : SLOResult :=
  let current_co2 := sensor_data.get "co2" 400
  let max_co2 := slo.config.max_co2.getD 800
  let compliance_score :=
    if current_co2 ≤ max_co2 then 1
    else max 0 (1 - pow15 ((current_co2 - max_co2) / 1000))
  { slo_name := slo.name
    metric := slo.metric
    compliance_score := compliance_score
    priority :=
      if 1200 < current_co2 then "high"
      else if max_co2 < current_co2 then "medium" else "low" }

/-- `SLOEvaluationEngine._evaluate_occupancy_optimization`. -/
def evaluate_occupancy_optimization (slo : SLO) (sensor_data : SensorData)
    (devices : List Device) : SLOResult :=
  let occupancy := sensor_data.get "occupancy" 0
  let hvac_on : ℚ :=
    (devices.filter (fun d => d.type = some "HVAC" ∧ d.status = some "ON")).length
  let lights_on : ℚ :=
    (devices.filter (fun d => d.type = some "Lighting" ∧ d.status = some "ON")).length
  let compliance_score :=
    if occupancy = 0 then
      let max_hvac_unoccupied := slo.config.max_hvac_unoccupied.getD 0
      let max_lights_unoccupied := slo.config.max_lights_unoccupied.getD 1
      let hvac_compliance : ℚ := if hvac_on ≤ max_hvac_unoccupied then 1 else 5/10
      let light_compliance : ℚ := if lights_on ≤ max_lights_unoccupied then 1 else 7/10
      (hvac_compliance + light_compliance) / 2
    else
      let expected_systems := min occupancy 5 / 5
      let total_systems_on := hvac_on + lights_on
      let total_systems : ℚ :=
        (devices.filter (fun d => d.type = some "HVAC" ∨ d.type = some "Lighting")).length
      let actual_ratio := if 0 < total_systems then total_systems_on / total_systems else 0
      if |actual_ratio - expected_systems| ≤ 3/10 then 1
      else max 0 (1 - |actual_ratio - expected_systems|)
  { slo_name := slo.name
    metric := slo.metric
    compliance_score := compliance_score
    priority := "medium" }

/-- `SLOEvaluationEngine._evaluate_humidity_control`. -/
def evaluate_humidity_control (slo : SLO) (sensor_data : SensorData) : SLOResult :=
  let current_humidity := sensor_data.get "humidity" 50
  let min_humidity := slo.config.min_humidity.getD 40
  let max_humidity := slo.config.max_humidity.getD 60
  let compliance_score :=
    if min_humidity ≤ current_humidity ∧ current_humidity ≤ max_humidity then 1
    else if current_humidity < min_humidity then
      max 0 (1 - (min_humidity - current_humidity) / 30)
    else
      max 0 (1 - (current_humidity - max_humidity) / 30)
  { slo_name := slo.name
    metric := slo.metric
    compliance_score := compliance_score
    priority := "medium" }

/-- `SLOEvaluationEngine._evaluate_emergency_readiness`. -/
def evaluate_emergency_readiness (slo : SLO) (devices : List Device) : SLOResult :=
  let emergency_devices :=
    devices.filter (fun d => d.type = some "Emergency" ∨ d.type = some "Security")
  let emergency_devices_on : ℚ :=
    (emergency_devices.filter (fun d => d.status = some "ON")).length
  let required : ℚ := slo.config.required_devices.getD emergency_devices.length
  let compliance_score :=
    if required ≤ emergency_devices_on then 1
    else if 0 < required then emergency_devices_on / required
    else 0
  { slo_name := slo.name
    metric := slo.metric
    compliance_score := compliance_score
    priority := if compliance_score < 8/10 then "high" else "medium" }

/-- `SLOEvaluationEngine._evaluate_generic_slo`
(`target_value = slo.target_value or 0`: a missing target and a zero
target read the same). -/
def evaluate_generic_slo (slo : SLO) (sensor_data : SensorData) : SLOResult :=
  let metric_value := sensor_data.get slo.metric 0
  let target_value := slo.target_value.getD 0
  let compliance_score :=
    if 0 < target_value then min 1 (metric_value / target_value)
    else if metric_value = target_value then 1 else 5/10
  { slo_name := slo.name
    metric := slo.metric
    compliance_score := compliance_score
    priority := "low" }

/-- The metric names registered in `evaluation_functions`. -/
def knownMetrics : List String :=
  ["temperature_comfort", "energy_efficiency", "security_lighting",
   "air_quality_co2", "occupancy_optimization", "humidity_control",
   "emergency_readiness"]

/-- `SLOEvaluationEngine._evaluate_single_slo`: metric dispatch with
generic fallback. -/
def evaluate_single_slo (pow15 : ℚ → ℚ) (slo : SLO) (sensor_data : SensorData)
    (devices : List Device) : Option SLOResult :=
  if slo.metric = "temperature_comfort" then some (evaluate_temperature_comfort slo sensor_data)
  else if slo.metric = "energy_efficiency" then evaluate_energy_efficiency slo sensor_data devices
  else if slo.metric = "security_lighting" then some (evaluate_security_lighting slo devices)
  else if slo.metric = "air_quality_co2" then some (evaluate_air_quality_co2 pow15 slo sensor_data)
  else if slo.metric = "occupancy_optimization" then some (evaluate_occupancy_optimization slo sensor_data devices)
  else if slo.metric = "humidity_control" then some (evaluate_humidity_control slo sensor_data)
  else if slo.metric = "emergency_readiness" then some (evaluate_emergency_readiness slo devices)
  else some (evaluate_generic_slo slo sensor_data)

/-- `_get_violation_severity`. -/
def violation_severity (compliance_score : ℚ) : String :=
  if compliance_score < 3/10 then "critical"
  else if compliance_score < 6/10 then "high"
  else if compliance_score < 8/10 then "medium"
  else "low"

/-- The main loop of `evaluate_room_slos`: skip inactive SLOs, evaluate
the rest in order, accumulate results, violations (score < 0.8) and the
weighted score. -/
def evalLoop (pow15 : ℚ → ℚ) (sensor_data : SensorData) (devices : List Device) :
    List SLO → Option (List SLOResult × List Violation × ℚ)
  | [] => some ([], [], 0)
  | slo :: rest =>
      if slo.active then
        match evaluate_single_slo pow15 slo sensor_data devices with
        | none => none
        | some result =>
            match evalLoop pow15 sensor_data devices rest with
            | none => none
            | some (rs, vs, w) =>
                some (result :: rs,
                      (if result.compliance_score < 8/10 then
                        [{ slo_name := slo.name
                           severity := violation_severity result.compliance_score }]
                       else []) ++ vs,
                      result.compliance_score * slo.weight + w)
      else evalLoop pow15 sensor_data devices rest

/-- `sum(slo.weight for slo in slos if slo.active)`. -/
def totalWeight (slos : List SLO) : ℚ :=
  ((slos.filter (fun slo => slo.active)).map (fun slo => slo.weight)).sum

/-- The category each metric rolls up into (`category_mapping`; unknown
metrics roll into `environmental`). -/
def metricCategory (metric : String) : String :=
  if metric = "temperature_comfort" then "comfort"
  else if metric = "humidity_control" then "comfort"
  else if metric = "air_quality_co2" then "environmental"
  else if metric = "occupancy_optimization" then "environmental"
  else if metric = "energy_efficiency" then "energy"
  else if metric = "security_lighting" then "security"
  else if metric = "emergency_readiness" then "security"
  else "environmental"

/-- Mean of the scores in a category, or the optimistic default 1.0 when
no SLO maps to it (`_calculate_category_scores`). -/
def categoryMean (results : List SLOResult) (category : String) : ℚ :=
  let scores := (results.filter (fun r => metricCategory r.metric = category)).map
    (fun r => r.compliance_score)
  if scores.isEmpty then 1 else scores.sum / scores.length

/-- `_calculate_category_scores`. -/
def calculate_category_scores (results : List SLOResult) : CategoryScores :=
  { comfort := categoryMean results "comfort"
    energy := categoryMean results "energy"
    security := categoryMean results "security"
    environmental := categoryMean results "environmental" }

/-- `SLOEvaluationEngine.evaluate_room_slos` (= `SLOService.evaluate_slos`).
`none` models an uncaught `ZeroDivisionError` from an evaluator. -/
def evaluate_room_slos (pow15 : ℚ → ℚ) (_room_data : RoomData)
    (sensor_data : SensorData) (devices : List Device) (slos : List SLO) :
    Option Evaluation :=
  (evalLoop pow15 sensor_data devices slos).map fun (rs, vs, weighted_score) =>
    { overall_compliance :=
        if 0 < totalWeight slos then weighted_score / totalWeight slos else 0
      slo_results := rs
      violations := vs
      scores := calculate_category_scores rs }

/-! ## Decision plans and the plan scorer (`decision_coordinator.py`) -/

/-- The metadata dict of a `DecisionPlan`; every key the coordinator
writes is a field, `none` meaning the key is absent. -/
structure PlanMetadata where
  resolution_strategy : Option String := none
  conflicts_resolved : Option Nat := none
  total_actions : Option Nat := none
  execution_recommendation : Option String := none
  recommendation_reason : Option String := none
  rank : Option Nat := none
  total_plans : Option Nat := none
  slo_violations : Option Nat := none
  critical_violations : Option Nat := none
  deriving DecidableEq, Repr

/-- `DecisionPlan`: `slo_compliance` starts as the empty dict (`none`,
falsy) and becomes the evaluation record (truthy) after scoring. -/
structure DecisionPlan where
  plan_id : String
  agent_decisions : List AgentDecision
  slo_compliance : Option Evaluation := none
  metadata : PlanMetadata := {}
  score : ℚ := 0
  confidence : ℚ := 0
  actions : List DeviceAction := []
  reasoning : String := ""
  deriving DecidableEq, Repr

/-- The state triple the scorer simulates over. -/
structure WorldState where
  room_data : RoomData := {}
  sensor_data : SensorData := ⟨[]⟩
  devices : List Device := []
  deriving DecidableEq, Repr

/-- `DecisionPlanScorer._apply_action_to_state`: update the first device
whose `id` matches the action's `device_id` (then `break`). -/
def apply_action_to_device (action : DeviceAction) (device : Device) : Device :=
  if action.action = some "turn_on" then { device with status := some "ON" }
  else if action.action = some "turn_off" then { device with status := some "OFF" }
  else if action.action = some "dim" then
    { device with status := some "ON", brightness := some (action.brightness.getD (5/10)) }
  else if action.action = some "set_temperature" then
    { device with target_temperature := some (action.temperature.getD 23) }
  else device

/-- Update the first matching device in the list (the `for … break`). -/
def updateFirstDevice (action : DeviceAction) : List Device → List Device
  | [] => []
  | d :: ds =>
      if d.id = action.device_id then apply_action_to_device action d :: ds
      else d :: updateFirstDevice action ds

/-- `_apply_action_to_state` lifted to the state. -/
def apply_action_to_state (action : DeviceAction) (state : WorldState) : WorldState :=
  { state with devices := updateFirstDevice action state.devices }

/-- `DecisionPlanScorer._simulate_environmental_response`. -/
def simulate_environmental_response (state : WorldState) : WorldState :=
  let hvac_devices := state.devices.filter
    (fun d => d.type = some "HVAC" ∧ d.status = some "ON")
  let airflow_devices := state.devices.filter
    (fun d => d.type = some "AirFlow" ∧ d.status = some "ON")
  let sd1 :=
    if hvac_devices.isEmpty then state.sensor_data
    else
      let target_temp :=
        (hvac_devices.map (fun d => d.target_temperature.getD 23)).sum /
          hvac_devices.length
      let current_temp := state.sensor_data.get "temperature" 22
      state.sensor_data.set "temperature"
        (current_temp + (target_temp - current_temp) * 2/10)
  let sd2 :=
    if airflow_devices.isEmpty then sd1
    else
      let current_co2 := sd1.get "co2" 400
      sd1.set "co2" (max 350 (current_co2 - airflow_devices.length * 50))
  let sd3 :=
    if hvac_devices.isEmpty then sd2
    else
      let current_humidity := sd2.get "humidity" 50
      sd2.set "humidity" (max 30 (current_humidity - 2))
  { state with sensor_data := sd3 }

/-- `DecisionPlanScorer._simulate_plan_impact` (the Python dict copies
are the identity in this functional embedding). -/
def simulate_plan_impact (plan : DecisionPlan) (current_state : WorldState) :
    WorldState :=
  simulate_environmental_response
    (plan.actions.foldl (fun st a => apply_action_to_state a st) current_state)

/-- `DecisionPlanScorer.score_decision_plan`, returning the plan with
`score`, `confidence` and `slo_compliance` populated.  `none` models an
uncaught exception: the `ZeroDivisionError` from
`sum(...) / len(plan.agent_decisions)` when `agent_decisions` is empty
(the source has no guard), or one propagated from the SLO engine. -/
def score_decision_plan (pow15 : ℚ → ℚ) (plan : DecisionPlan)
    (current_state : WorldState) (slos : List SLO) : Option DecisionPlan :=
  let predicted_state := simulate_plan_impact plan current_state
  match evaluate_room_slos pow15 predicted_state.room_data
      predicted_state.sensor_data predicted_state.devices slos with
  | none => none
  | some predicted_evaluation =>
      match plan.agent_decisions with
      | [] => none
      | _ =>
          let slo_score := predicted_evaluation.overall_compliance
          let agent_confidence :=
            (plan.agent_decisions.map (fun d => d.confidence.getD (5/10))).sum /
              plan.agent_decisions.length
          let complexity_penalty : ℚ := min (1/10) ((plan.actions.length : ℚ) * (2/100))
          let composite_score :=
            (slo_score * (7/10) + agent_confidence * (3/10)) - complexity_penalty
          some { plan with
                 score := max 0 (min 1 composite_score)
                 confidence := agent_confidence
                 slo_compliance := some predicted_evaluation }

/-! ## MultiAgentCoordinator (`decision_coordinator.py`)

`coordinate_decisions` is modelled from the point where
`_collect_agent_decisions` has returned: the agent decision list is a
parameter (the async collection itself — LLM calls gathered with
exception filtering — is outside the pure fragment).  `ts` stands for
the wall-clock `datetime.now().strftime('%H%M%S')` fragment of the plan
id. -/

/-- The default strategy list used when `resolution_strategies is None`. -/
def defaultStrategies : List String :=
  ["priority_weighted", "safety_first", "energy_balance"]

/-- One iteration of the plan-building loop: resolve with the strategy,
build the plan, score it. -/
def buildPlan (pow15 : ℚ → ℚ) (ts : String)
    (agent_decisions : List AgentDecision) (context : WorldState)
    (slos : List SLO) (strategy : String) : Option DecisionPlan :=
  let resolution_result := resolve_conflicts agent_decisions strategy
  let plan : DecisionPlan :=
    { plan_id := strategy ++ "_" ++ ts
      agent_decisions := agent_decisions
      slo_compliance := none
      metadata :=
        { resolution_strategy := some strategy
          conflicts_resolved := some resolution_result.conflicts.length
          total_actions := some resolution_result.resolved_actions.length }
      actions := resolution_result.resolved_actions
      reasoning := "Plan resolved using " ++ strategy ++ " strategy with "
        ++ toString resolution_result.resolved_actions.length ++ " actions" }
  score_decision_plan pow15 plan context slos

/-- The plan-building loop over all requested strategies. -/
def buildPlans (pow15 : ℚ → ℚ) (ts : String)
    (agent_decisions : List AgentDecision) (context : WorldState)
    (slos : List SLO) : List String → Option (List DecisionPlan)
  | [] => some []
  | strategy :: rest =>
      match buildPlan pow15 ts agent_decisions context slos strategy with
      | none => none
      | some plan =>
          match buildPlans pow15 ts agent_decisions context slos rest with
          | none => none
          | some plans => some (plan :: plans)

/-- `decision_plans.sort(key=lambda p: p.score, reverse=True)`:
Python's stable descending sort by score. -/
def sortPlansDesc (plans : List DecisionPlan) : List DecisionPlan :=
  stableSortBy (fun y x => x.score ≤ y.score) plans

/-- Map with the position starting at `i`. -/
def mapWithIndexFrom {α β : Type} (f : Nat → α → β) : Nat → List α → List β
  | _, [] => []
  | i, x :: xs => f i x :: mapWithIndexFrom f (i + 1) xs

/-- Map with the 0-based position, as `for i, plan in enumerate(plans)`. -/
def mapWithIndex {α β : Type} (f : Nat → α → β) (l : List α) : List β :=
  mapWithIndexFrom f 0 l

/-- The per-plan body of `_add_execution_recommendations`. -/
def addRecommendation (total : Nat) (i : Nat) (plan : DecisionPlan) : DecisionPlan :=
  let md := plan.metadata
  let md :=
    if 9/10 ≤ plan.score ∧ 85/100 ≤ plan.confidence then
      { md with execution_recommendation := some "AUTO"
                recommendation_reason := some "High confidence and SLO compliance" }
    else if 7/10 ≤ plan.score ∧ 7/10 ≤ plan.confidence then
      { md with execution_recommendation := some "REVIEW"
                recommendation_reason := some "Good plan, recommended for manual review" }
    else
      { md with execution_recommendation := some "MANUAL"
                recommendation_reason := some "Requires manual evaluation" }
  let md := { md with rank := some (i + 1), total_plans := some total }
  let md :=
    match plan.slo_compliance with
    | none => md
    | some ev =>
        { md with
          slo_violations := some ev.violations.length
          critical_violations :=
            some (ev.violations.filter (fun v => v.severity = "critical")).length }
  { plan with metadata := md }

/-- `MultiAgentCoordinator._add_execution_recommendations`. -/
def add_execution_recommendations (plans : List DecisionPlan) : List DecisionPlan :=
  mapWithIndex (addRecommendation plans.length) plans

/-- `MultiAgentCoordinator.coordinate_decisions` from the collected
agent decisions on: build one plan per strategy, sort by score
descending, annotate recommendations and ranks.  `none` models an
uncaught exception from scoring. -/
def coordinate_decisions (pow15 : ℚ → ℚ) (ts : String)
    (agent_decisions : List AgentDecision) (context : WorldState)
    (slos : List SLO) (resolution_strategies : Option (List String)) :
    Option (List DecisionPlan) :=
  let strategies := resolution_strategies.getD defaultStrategies
  (buildPlans pow15 ts agent_decisions context slos strategies).map fun plans =>
    add_execution_recommendations (sortPlansDesc plans)

/-! ## Execution engine (`execution_engine.py`)

The per-action device call is asynchronous with an artificial random
failure injection; it is modelled by a success oracle
`outcome : DeviceAction → Bool`.  All action tasks are awaited
(`asyncio.gather`), so the final per-action statuses are exactly the map
of the oracle over the actions; the engine-state mutation of the
`finally` block is explicit state passing. -/

inductive ExecutionStatus where
  | pending | in_progress | completed | failed | timeout | cancelled
  deriving DecidableEq, Repr

/-- `ActionResult` (timestamps and response payloads elided). -/
structure ActionResult where
  action : DeviceAction
  status : ExecutionStatus := .pending
  error_message : Option String := none
  deriving DecidableEq, Repr

/-- `ExecutionPlan` (timestamps and approval bookkeeping not touched by
the verified claims are elided). -/
structure ExecutionPlan where
  plan_id : String
  execution_mode : String := "MANUAL"
  status : ExecutionStatus := .pending
  action_results : List ActionResult := []
  deriving DecidableEq, Repr

/-- `ExecutionPlan.get_progress_percentage`. -/
def get_progress_percentage (ep : ExecutionPlan) : ℚ :=
  if ep.action_results.isEmpty then 0
  else
    let completed : ℚ := (ep.action_results.filter
      (fun r => r.status = .completed ∨ r.status = .failed)).length
    completed / ep.action_results.length * 100

/-- The mutable registry state of `DecisionExecutionEngine`. -/
structure EngineState where
  active_executions : List (String × ExecutionPlan) := []
  execution_history : List ExecutionPlan := []
  deriving DecidableEq, Repr

/-- `DecisionExecutionEngine._execute_single_action`: the action reaches
COMPLETED or FAILED according to the device controller's outcome. -/
def execute_single_action (outcome : DeviceAction → Bool) (r : ActionResult) :
    ActionResult :=
  if outcome r.action then { r with status := .completed }
  else { r with status := .failed, error_message := some "Unknown error" }

/-- The overall-status derivation of `_execute_plan_actions` (source
lines 313–320): COMPLETED when no action failed, COMPLETED (partial
success) when fewer than all failed, FAILED otherwise. -/
def overallStatus (results : List ActionResult) : ExecutionStatus :=
  let failed_actions := results.filter (fun r => r.status = .failed)
  if failed_actions.isEmpty then ExecutionStatus.completed
  else if failed_actions.length < results.length then ExecutionStatus.completed
  else ExecutionStatus.failed

/-- `DecisionExecutionEngine._execute_plan_actions` (non-exception path):
await every action, derive the overall status from the failure count,
append the plan to the history, drop it from the active registry. -/
def execute_plan_actions (outcome : DeviceAction → Bool) (ep : ExecutionPlan)
    (st : EngineState) : ExecutionPlan × EngineState :=
  let results := ep.action_results.map (execute_single_action outcome)
  let ep' := { ep with action_results := results, status := overallStatus results }
  (ep',
   { active_executions := st.active_executions.filter (fun e => ¬ e.1 = ep.plan_id)
     execution_history := st.execution_history ++ [ep'] })

/-! ## Theorems -/

/-- C1: `score_decision_plan` computes the mean agent confidence as
`sum(...) / len(plan.agent_decisions)` with no emptiness guard, so a plan
whose agent-decision list is empty makes scoring raise `ZeroDivisionError`
(`none` in this embedding) instead of returning a zero-confidence plan as
the spec requires. -/
theorem score_decision_plan_empty_decisions_fails (pow15 : ℚ → ℚ)
    (plan : DecisionPlan) (current_state : WorldState) (slos : List SLO)
    (h : plan.agent_decisions = []) :
    score_decision_plan pow15 plan current_state slos = none := by
  simp only [score_decision_plan, h]
  cases evaluate_room_slos pow15 (simulate_plan_impact plan current_state).room_data
      (simulate_plan_impact plan current_state).sensor_data
      (simulate_plan_impact plan current_state).devices slos <;> rfl

/-- Witness for C1: the concrete plan with no agent decisions. -/
theorem score_decision_plan_empty_decisions_fails_witness :
    score_decision_plan (fun x => x * x)
      { plan_id := "p", agent_decisions := [] } {} [] = none :=
  score_decision_plan_empty_decisions_fails (fun x => x * x)
    { plan_id := "p", agent_decisions := [] } {} [] rfl

/-- C9: `resolve_conflicts` with a strategy name outside the registered
four silently falls back to priority-weighted resolution. -/
theorem resolve_conflicts_unknown_strategy (agent_decisions : List AgentDecision)
    (strategy : String)
    (h : strategy ∉ ["priority_weighted", "majority_vote", "safety_first",
                     "energy_balance"]) :
    resolve_conflicts agent_decisions strategy =
      priority_weighted_resolution agent_decisions := by
  simp only [List.mem_cons, List.not_mem_nil, or_false, not_or] at h
  obtain ⟨h1, h2, h3, h4⟩ := h
  simp only [resolve_conflicts, if_neg h1, if_neg h2, if_neg h3, if_neg h4]

/-- Witness for C9: the unregistered strategy name `"round_robin"`. -/
theorem resolve_conflicts_unknown_strategy_witness :
    resolve_conflicts [] "round_robin" = priority_weighted_resolution [] :=
  resolve_conflicts_unknown_strategy [] "round_robin" (by decide)

/-- C10: progress percentage is 0 for a plan with no actions (guarded,
no division by zero), and both COMPLETED and FAILED count as progress,
so a nonempty plan whose actions all reached a terminal state reports
exactly 100 even when some or all actions failed. -/
theorem get_progress_percentage_spec (ep : ExecutionPlan) :
    (ep.action_results = [] → get_progress_percentage ep = 0) ∧
    (ep.action_results ≠ [] →
      (∀ r ∈ ep.action_results,
        r.status = ExecutionStatus.completed ∨ r.status = ExecutionStatus.failed) →
      get_progress_percentage ep = 100) := by
  constructor
  · intro h
    simp [get_progress_percentage, h]
  · intro hne hall
    have hfilter : ep.action_results.filter
        (fun r => decide (r.status = ExecutionStatus.completed ∨
          r.status = ExecutionStatus.failed)) = ep.action_results := by
      rw [List.filter_eq_self]
      intro r hr
      exact decide_eq_true (hall r hr)
    have hlen : ((ep.action_results.length : ℚ)) ≠ 0 := by
      exact_mod_cast fun h => hne (List.length_eq_zero.mp (by exact_mod_cast h))
    simp only [get_progress_percentage, List.isEmpty_iff, hne, if_false]
    rw [hfilter, div_self hlen, one_mul]

/-- Auxiliary for C7: `overallStatus` is FAILED exactly on a nonempty
all-failed result list. -/
theorem overallStatus_failed_iff (results : List ActionResult) :
    overallStatus results = ExecutionStatus.failed ↔
      results ≠ [] ∧ ∀ r ∈ results, r.status = ExecutionStatus.failed := by
  unfold overallStatus
  by_cases h1 : (results.filter (fun r => decide (r.status = ExecutionStatus.failed))).isEmpty
  · rw [if_pos h1]
    constructor
    · intro h; exact absurd h (by simp)
    · rintro ⟨hnil, hall⟩
      rw [List.isEmpty_iff, List.filter_eq_self.mpr
        (fun r hr => decide_eq_true (hall r hr))] at h1
      exact absurd h1 hnil
  · rw [if_neg h1]
    by_cases h2 : (results.filter
        (fun r => decide (r.status = ExecutionStatus.failed))).length < results.length
    · rw [if_pos h2]
      constructor
      · intro h; exact absurd h (by simp)
      · rintro ⟨hnil, hall⟩
        rw [List.filter_eq_self.mpr (fun r hr => decide_eq_true (hall r hr))] at h2
        exact absurd h2 (lt_irrefl _)
    · rw [if_neg h2]
      refine ⟨fun _ => ⟨?_, ?_⟩, fun _ => rfl⟩
      · intro hnil
        rw [hnil] at h1
        exact h1 rfl
      · intro r hr
        exact of_decide_eq_true (List.filter_length_eq_length.mp
          (le_antisymm (List.length_filter_le _ _) (not_lt.mp h2)) r hr)

/-- Auxiliary for C7: `overallStatus` only takes the two terminal plan
values, so it is COMPLETED exactly when not FAILED. -/
theorem overallStatus_completed_iff (results : List ActionResult) :
    overallStatus results = ExecutionStatus.completed ↔
      (results = [] ∨ ∃ r ∈ results, r.status ≠ ExecutionStatus.failed) := by
  have hdicho : overallStatus results = ExecutionStatus.completed ∨
      overallStatus results = ExecutionStatus.failed := by
    simp only [overallStatus]
    split
    · exact Or.inl rfl
    · split
      · exact Or.inl rfl
      · exact Or.inr rfl
  constructor
  · intro h
    by_cases hnil : results = []
    · exact Or.inl hnil
    · right
      by_contra hno
      push_neg at hno
      have : overallStatus results = ExecutionStatus.failed :=
        (overallStatus_failed_iff results).mpr ⟨hnil, hno⟩
      rw [h] at this
      exact absurd this (by simp)
  · intro h
    rcases hdicho with hc | hf
    · exact hc
    · obtain ⟨_, hall⟩ := (overallStatus_failed_iff results).mp hf
      rcases h with hnil | ⟨r, hr, hrs⟩
      · unfold overallStatus at hf ⊢
        rw [hnil] at hf ⊢
        exact absurd hf (by simp [List.isEmpty])
      · exact absurd (hall r hr) hrs

/-- C7: after `_execute_plan_actions`, every action has reached a
terminal status (all tasks are awaited, none is abandoned), the plan is
COMPLETED exactly when no action failed or only some did, FAILED exactly
when the plan had actions and all of them failed, the plan is appended
to the execution history, and its id is gone from the active registry. -/
theorem execute_plan_actions_spec (outcome : DeviceAction → Bool)
    (ep : ExecutionPlan) (st : EngineState) :
    (∀ r ∈ (execute_plan_actions outcome ep st).1.action_results,
        r.status = ExecutionStatus.completed ∨ r.status = ExecutionStatus.failed) ∧
    (execute_plan_actions outcome ep st).1.action_results.length
        = ep.action_results.length ∧
    ((execute_plan_actions outcome ep st).1.status = ExecutionStatus.failed ↔
      (execute_plan_actions outcome ep st).1.action_results ≠ [] ∧
        ∀ r ∈ (execute_plan_actions outcome ep st).1.action_results,
          r.status = ExecutionStatus.failed) ∧
    ((execute_plan_actions outcome ep st).1.status = ExecutionStatus.completed ↔
      ((execute_plan_actions outcome ep st).1.action_results = [] ∨
        ∃ r ∈ (execute_plan_actions outcome ep st).1.action_results,
          r.status ≠ ExecutionStatus.failed)) ∧
    (execute_plan_actions outcome ep st).2.execution_history
        = st.execution_history ++ [(execute_plan_actions outcome ep st).1] ∧
    (∀ e ∈ (execute_plan_actions outcome ep st).2.active_executions,
        e.1 ≠ ep.plan_id) := by
  have har : (execute_plan_actions outcome ep st).1.action_results
      = ep.action_results.map (execute_single_action outcome) := rfl
  have hstat : (execute_plan_actions outcome ep st).1.status
      = overallStatus (ep.action_results.map (execute_single_action outcome)) := rfl
  refine ⟨?_, ?_, ?_, ?_, rfl, ?_⟩
  · intro r hr
    rw [har] at hr
    obtain ⟨r0, _, rfl⟩ := List.mem_map.mp hr
    unfold execute_single_action
    by_cases h : outcome r0.action = true
    · rw [if_pos h]; exact Or.inl rfl
    · rw [if_neg h]; exact Or.inr rfl
  · rw [har, List.length_map]
  · rw [hstat, har]
    exact overallStatus_failed_iff _
  · rw [hstat, har]
    exact overallStatus_completed_iff _
  · intro e he
    have := List.of_mem_filter he
    exact fun hc => absurd (decide_eq_true_eq.mp this) (fun h => h hc)

/-- Looking up a key on a cons cell. -/
theorem lookupGroup_cons {K V : Type} [DecidableEq K] (k₀ : K) (vs : List V)
    (g : List (K × List V)) (k : K) :
    lookupGroup ((k₀, vs) :: g) k = if k₀ = k then vs else lookupGroup g k := by
  by_cases h : k₀ = k
  · simp [lookupGroup, List.find?, h]
  · simp [lookupGroup, List.find?, h]

/-- `groupInsert` appends to exactly the inserted key's group. -/
theorem lookupGroup_groupInsert {K V : Type} [DecidableEq K] (k : K) (v : V)
    (g : List (K × List V)) (k' : K) :
    lookupGroup (groupInsert k v g) k' =
      if k' = k then lookupGroup g k' ++ [v] else lookupGroup g k' := by
  induction g with
  | nil =>
      simp only [groupInsert, lookupGroup_cons]
      by_cases h : k' = k
      · rw [if_pos h.symm, if_pos h]; rfl
      · rw [if_neg (fun hh => h hh.symm), if_neg h]
  | cons e rest ih =>
      obtain ⟨k₀, vs⟩ := e
      simp only [groupInsert]
      by_cases h₀ : k₀ = k
      · rw [if_pos h₀]
        by_cases h' : k₀ = k'
        · have hk : k' = k := h'.symm.trans h₀
          rw [lookupGroup_cons, if_pos h', if_pos hk, lookupGroup_cons, if_pos h']
        · have hk : ¬ k' = k := fun hh => h' (h₀.trans hh.symm)
          rw [lookupGroup_cons, if_neg h', if_neg hk, lookupGroup_cons, if_neg h']
      · rw [if_neg h₀]
        by_cases h' : k₀ = k'
        · have hk : ¬ k' = k := fun hh => h₀ (h'.trans hh)
          rw [lookupGroup_cons, if_pos h', if_neg hk, lookupGroup_cons, if_pos h']
        · rw [lookupGroup_cons, if_neg h', ih]
          by_cases hk : k' = k
          · rw [if_pos hk, if_pos hk, lookupGroup_cons, if_neg h']
          · rw [if_neg hk, if_neg hk, lookupGroup_cons, if_neg h']

/-- The group of key `k` after folding a stream is exactly the values
of the stream entries keyed `k`, in stream order (Python dict-of-lists
grouping). -/
theorem lookupGroup_groupFold {K V : Type} [DecidableEq K]
    (kvs : List (K × V)) (k : K) :
    lookupGroup (groupFold kvs) k =
      (kvs.filter (fun p => p.1 = k)).map (fun p => p.2) := by
  suffices h : ∀ acc, lookupGroup (kvs.foldl (fun acc p => groupInsert p.1 p.2 acc) acc) k
      = lookupGroup acc k ++ (kvs.filter (fun p => p.1 = k)).map (fun p => p.2) by
    have h0 := h []
    simpa [groupFold, lookupGroup, List.find?] using h0
  induction kvs with
  | nil => intro acc; simp
  | cons p rest ih =>
      intro acc
      rw [List.foldl_cons, ih (groupInsert p.1 p.2 acc), lookupGroup_groupInsert]
      by_cases hp : p.1 = k
      · rw [if_pos hp.symm]
        simp [List.filter_cons, hp, List.append_assoc]
      · rw [if_neg (fun hh => hp hh.symm)]
        simp [List.filter_cons, hp]

/-- A nonempty group is an entry of the grouping list. -/
theorem lookupGroup_mem {K V : Type} [DecidableEq K] (g : List (K × List V))
    (k : K) (h : lookupGroup g k ≠ []) : (k, lookupGroup g k) ∈ g := by
  unfold lookupGroup at *
  cases hf : g.find? (fun p => p.1 = k) with
  | none => rw [hf] at h; exact absurd rfl h
  | some e =>
      have he := List.mem_of_find?_eq_some hf
      have hp := List.find?_some hf
      simp only [decide_eq_true_eq] at hp
      have hk : e.1 = k := hp
      show (k, e.2) ∈ g
      rw [← hk]
      exact he

/-- Inserting permutes: the element just lands somewhere inside. -/
theorem insertStable_perm {α : Type} (keep : α → α → Bool) (x : α) (l : List α) :
    (insertStable keep x l).Perm (x :: l) := by
  induction l with
  | nil => exact List.Perm.refl _
  | cons y ys ih =>
      unfold insertStable
      by_cases h : keep y x = true
      · rw [if_pos h]
        exact (ih.cons y).trans (List.Perm.swap x y ys)
      · rw [if_neg h]

/-- The stable sort is a permutation of its input. -/
theorem stableSortBy_perm {α : Type} (keep : α → α → Bool) (l : List α) :
    (stableSortBy keep l).Perm l := by
  suffices h : ∀ acc, ((l.foldl (fun acc x => insertStable keep x acc) acc)).Perm (acc ++ l) by
    simpa [stableSortBy] using h []
  induction l with
  | nil => intro acc; simp
  | cons x xs ih =>
      intro acc
      rw [List.foldl_cons]
      refine (ih (insertStable keep x acc)).trans ?_
      refine (List.Perm.append_right xs (insertStable_perm keep x acc)).trans ?_
      exact List.perm_middle.symm

/-- Inserting into a `keep`-sorted list keeps it sorted, given that
`keep` is total and transitive. -/
theorem insertStable_pairwise {α : Type} (keep : α → α → Bool)
    (htot : ∀ a b, keep a b = false → keep b a = true)
    (htrans : ∀ a b c, keep a b = true → keep b c = true → keep a c = true)
    (x : α) (l : List α) (h : List.Pairwise (fun a b => keep a b = true) l) :
    List.Pairwise (fun a b => keep a b = true) (insertStable keep x l) := by
  induction l with
  | nil => exact List.pairwise_singleton _ x
  | cons y ys ih =>
      unfold insertStable
      rcases List.pairwise_cons.mp h with ⟨hy, hys⟩
      by_cases hk : keep y x = true
      · rw [if_pos hk]
        refine List.pairwise_cons.mpr ⟨?_, ih hys⟩
        intro z hz
        rcases List.mem_cons.mp ((insertStable_perm keep x ys).mem_iff.mp hz) with hzx | hz'
        · subst hzx; exact hk
        · exact hy z hz'
      · rw [if_neg hk]
        have hkf : keep y x = false := by
          cases hcase : keep y x with
          | false => rfl
          | true => exact absurd hcase hk
        refine List.pairwise_cons.mpr ⟨?_, h⟩
        intro z hz
        rcases List.mem_cons.mp hz with hzy | hz'
        · rw [hzy]; exact htot y x hkf
        · exact htrans x y z (htot y x hkf) (hy z hz')

/-- The stable sort is `keep`-sorted (pairwise). -/
theorem stableSortBy_pairwise {α : Type} (keep : α → α → Bool)
    (htot : ∀ a b, keep a b = false → keep b a = true)
    (htrans : ∀ a b c, keep a b = true → keep b c = true → keep a c = true)
    (l : List α) :
    List.Pairwise (fun a b => keep a b = true) (stableSortBy keep l) := by
  suffices h : ∀ acc, List.Pairwise (fun a b => keep a b = true) acc →
      List.Pairwise (fun a b => keep a b = true)
        (l.foldl (fun acc x => insertStable keep x acc) acc) by
    exact h [] (List.Pairwise.nil)
  induction l with
  | nil => intro acc hacc; exact hacc
  | cons x xs ih =>
      intro acc hacc
      rw [List.foldl_cons]
      exact ih _ (insertStable_pairwise keep htot htrans x acc hacc)

/-- Stability, phrased through filters: inserting an element whose class
`pc` cannot reappear strictly below it appends it to its class. -/
theorem insertStable_filter {α : Type} (keep : α → α → Bool) (pc : α → Bool)
    (htrans : ∀ a b c, keep a b = true → keep b c = true → keep a c = true)
    (hcompat : ∀ a b, pc a = true → keep b a = false → pc b = false)
    (x : α) (l : List α) (hl : List.Pairwise (fun a b => keep a b = true) l) :
    (insertStable keep x l).filter pc =
      if pc x then l.filter pc ++ [x] else l.filter pc := by
  induction l with
  | nil =>
      by_cases hx : pc x
      · simp [insertStable, List.filter_cons, hx]
      · simp [insertStable, List.filter_cons, hx]
  | cons y ys ih =>
      rcases List.pairwise_cons.mp hl with ⟨hy, hys⟩
      unfold insertStable
      by_cases hk : keep y x = true
      · rw [if_pos hk]
        rw [List.filter_cons, List.filter_cons]
        by_cases hpy : pc y
        · simp only [hpy, if_true, ih hys]
          by_cases hx : pc x
          · rw [if_pos hx, if_pos hx, List.cons_append]
          · rw [if_neg hx, if_neg hx]
        · simp only [hpy, if_false, Bool.false_eq_true, ih hys]
      · rw [if_neg hk]
        have hkf : keep y x = false := Bool.eq_false_iff.mpr hk
        rw [List.filter_cons]
        by_cases hx : pc x
        · rw [if_pos (by rw [hx])]
          have hzero : (y :: ys).filter pc = [] := by
            rw [List.filter_eq_nil_iff]
            intro z hz
            rcases List.mem_cons.mp hz with rfl | hz'
            · rw [hcompat x z hx hkf]; exact Bool.false_ne_true
            · have hzx : keep z x = false := by
                cases hzx : keep z x with
                | false => rfl
                | true => exact absurd (htrans y z x (hy z hz') hzx) (by rw [hkf]; simp)
              rw [hcompat x z hx hzx]; exact Bool.false_ne_true
          rw [hx, if_pos rfl, hzero]
          rfl
        · rw [if_neg (by rw [Bool.eq_false_iff.mpr hx]; exact Bool.false_ne_true)]
          rw [Bool.eq_false_iff.mpr hx, if_neg Bool.false_ne_true]

/-- Stability of the stable sort: each `pc`-class keeps its input
order. -/
theorem stableSortBy_filter {α : Type} (keep : α → α → Bool) (pc : α → Bool)
    (htot : ∀ a b, keep a b = false → keep b a = true)
    (htrans : ∀ a b c, keep a b = true → keep b c = true → keep a c = true)
    (hcompat : ∀ a b, pc a = true → keep b a = false → pc b = false)
    (l : List α) :
    (stableSortBy keep l).filter pc = l.filter pc := by
  suffices h : ∀ acc, List.Pairwise (fun a b => keep a b = true) acc →
      (l.foldl (fun acc x => insertStable keep x acc) acc).filter pc
        = acc.filter pc ++ l.filter pc by
    simpa [stableSortBy] using h [] List.Pairwise.nil
  induction l with
  | nil => intro acc _; simp
  | cons x xs ih =>
      intro acc hacc
      rw [List.foldl_cons,
        ih _ (insertStable_pairwise keep htot htrans x acc hacc),
        insertStable_filter keep pc htrans hcompat x acc hacc, List.filter_cons]
      by_cases hx : pc x
      · rw [if_pos hx, if_pos (by rw [hx]), List.append_assoc, List.singleton_append]
      · rw [if_neg hx, if_neg (by rw [Bool.eq_false_iff.mpr hx]; exact Bool.false_ne_true)]

/-- The resolved list of `claimFold` only grows. -/
theorem claimFold_mem_mono (s : List DeviceAction) :
    ∀ (assigned : List (Option String)) (resolved : List DeviceAction)
      (x : DeviceAction), x ∈ resolved → x ∈ (claimFold s assigned resolved).2 := by
  induction s with
  | nil => intro a r x hx; exact hx
  | cons y ys ih =>
      intro a r x hx
      unfold claimFold
      by_cases h : y.device_id ∈ a
      · rw [if_pos h]; exact ih a r x hx
      · rw [if_neg h]; exact ih _ _ x (List.mem_append_left _ hx)

/-- An action whose device appears exactly once in the stream is claimed
by `claimFold` provided its device is not pre-assigned. -/
theorem claimFold_adds (s : List DeviceAction) (x : DeviceAction) :
    ∀ (assigned : List (Option String)) (resolved : List DeviceAction),
      s.filter (fun z => z.device_id = x.device_id) = [x] →
      x.device_id ∉ assigned → x ∈ (claimFold s assigned resolved).2 := by
  induction s with
  | nil => intro a r hx _; exact absurd hx (by simp)
  | cons y ys ih =>
      intro a r hx hna
      by_cases hy : y.device_id = x.device_id
      · rw [List.filter_cons, if_pos (decide_eq_true hy)] at hx
        obtain ⟨rfl, hnil⟩ := List.cons_eq_cons.mp hx
        unfold claimFold
        rw [if_neg hna]
        exact claimFold_mem_mono ys _ _ y
          (List.mem_append_right _ (List.mem_singleton.mpr rfl))
      · rw [List.filter_cons, if_neg (by simpa using hy)] at hx
        unfold claimFold
        by_cases hin : y.device_id ∈ a
        · rw [if_pos hin]; exact ih a r hx hna
        · rw [if_neg hin]
          refine ih _ _ hx ?_
          intro hc
          rcases List.mem_append.mp hc with h | h
          · exact hna h
          · exact hy (List.mem_singleton.mp h).symm

/-- C5: temperature comfort scores 1 inside the inclusive band and
otherwise decays linearly over 5 °C of distance to the nearest bound;
in particular 2.5 °C below `min_temp` scores exactly 0.5 and 5 °C or
more below scores exactly 0. -/
theorem temperature_comfort_spec (slo : SLO) (sensor_data : SensorData)
    (hband : slo.config.min_temp.getD 22 ≤ slo.config.max_temp.getD 24) :
    (slo.config.min_temp.getD 22 ≤ sensor_data.get "temperature" 22 ∧
        sensor_data.get "temperature" 22 ≤ slo.config.max_temp.getD 24 →
      (evaluate_temperature_comfort slo sensor_data).compliance_score = 1) ∧
    (¬ (slo.config.min_temp.getD 22 ≤ sensor_data.get "temperature" 22 ∧
        sensor_data.get "temperature" 22 ≤ slo.config.max_temp.getD 24) →
      (evaluate_temperature_comfort slo sensor_data).compliance_score =
        max 0 (1 - min |sensor_data.get "temperature" 22 - slo.config.min_temp.getD 22|
                     |sensor_data.get "temperature" 22 - slo.config.max_temp.getD 24| / 5)) ∧
    (sensor_data.get "temperature" 22 = slo.config.min_temp.getD 22 - 5/2 →
      (evaluate_temperature_comfort slo sensor_data).compliance_score = 1/2) ∧
    (sensor_data.get "temperature" 22 ≤ slo.config.min_temp.getD 22 - 5 →
      (evaluate_temperature_comfort slo sensor_data).compliance_score = 0) := by
  set t := sensor_data.get "temperature" 22 with ht
  set mn := slo.config.min_temp.getD 22 with hmn
  set mx := slo.config.max_temp.getD 24 with hmx
  have hscore : (evaluate_temperature_comfort slo sensor_data).compliance_score =
      if mn ≤ t ∧ t ≤ mx then 1
      else if t < mn then max 0 (1 - (mn - t) / 5)
      else max 0 (1 - (t - mx) / 5) := rfl
  refine ⟨?_, ?_, ?_, ?_⟩
  · intro hin
    rw [hscore, if_pos hin]
  · intro hout
    rw [hscore, if_neg hout]
    by_cases hlt : t < mn
    · rw [if_pos hlt]
      have h1 : |t - mn| = mn - t := by
        rw [abs_of_nonpos (by linarith)]; ring
      have h2 : |t - mx| = mx - t := by
        rw [abs_of_nonpos (by linarith)]; ring
      rw [h1, h2, min_eq_left (by linarith)]
    · rw [if_neg hlt]
      have hgt : mx < t := by
        rcases not_and_or.mp hout with h | h
        · exact absurd (not_lt.mp hlt) h
        · exact not_le.mp h
      have h1 : |t - mn| = t - mn := by
        rw [abs_of_nonneg (by linarith)]
      have h2 : |t - mx| = t - mx := by
        rw [abs_of_nonneg (by linarith)]
      rw [h1, h2, min_eq_right (by linarith)]
  · intro hmid
    have hlt : t < mn := by rw [hmid]; linarith
    rw [hscore, if_neg (fun hc => absurd hc.1 (not_le.mpr hlt)), if_pos hlt, hmid]
    rw [max_eq_right (by ring_nf; linarith)]
    ring
  · intro hfar
    have hlt : t < mn := by linarith
    rw [hscore, if_neg (fun hc => absurd hc.1 (not_le.mpr hlt)), if_pos hlt]
    rw [max_eq_left ?_]
    have : 1 ≤ (mn - t) / 5 := by
      rw [le_div_iff₀ (by norm_num)]
      linarith
    linarith

/-- Witness for C5: the default band [22, 24] at the boundary value 22,
the midpoint value 19.5, the cutoff value 17 and an in-band value 23. -/
theorem temperature_comfort_spec_witness :
    ((evaluate_temperature_comfort
        { name := "T", metric := "temperature_comfort", weight := 1 }
        ⟨[("temperature", 39/2)]⟩).compliance_score = 1/2) ∧
    ((evaluate_temperature_comfort
        { name := "T", metric := "temperature_comfort", weight := 1 }
        ⟨[("temperature", 17)]⟩).compliance_score = 0) ∧
    ((evaluate_temperature_comfort
        { name := "T", metric := "temperature_comfort", weight := 1 }
        ⟨[("temperature", 22)]⟩).compliance_score = 1) :=
  ⟨(temperature_comfort_spec
      { name := "T", metric := "temperature_comfort", weight := 1 }
      ⟨[("temperature", 39/2)]⟩ (by norm_num)).2.2.1
      (by simp [SensorData.get, List.find?]; norm_num),
   (temperature_comfort_spec
      { name := "T", metric := "temperature_comfort", weight := 1 }
      ⟨[("temperature", 17)]⟩ (by norm_num)).2.2.2
      (by simp [SensorData.get, List.find?]; norm_num),
   (temperature_comfort_spec
      { name := "T", metric := "temperature_comfort", weight := 1 }
      ⟨[("temperature", 22)]⟩ (by norm_num)).1
      (by simp [SensorData.get, List.find?]; norm_num)⟩

/-- The single agent decision of the C2 counterexample: one comfort
agent proposing one action on one device. -/
def soloDecision : AgentDecision :=
  { agent_type := some "comfort"
    priority := some (7/10)
    decisions := [{ device_id := some "hvac_1", action := some "turn_on" }]
    confidence := some (8/10) }

/-- Counterexample to C2 as stated: a device targeted by exactly one
agent's single action is resolved under `priority_weighted` but dropped
by `majority_vote` (one vote is below its fixed ≥ 2 threshold), so the
strategies do not all produce the identical action. -/
theorem majority_vote_drops_single_claim :
    ({ device_id := some "hvac_1", action := some "turn_on" } : DeviceAction) ∈
      (resolve_conflicts [soloDecision] "priority_weighted").resolved_actions ∧
    ({ device_id := some "hvac_1", action := some "turn_on" } : DeviceAction) ∉
      (resolve_conflicts [soloDecision] "majority_vote").resolved_actions ∧
    (resolve_conflicts [soloDecision] "majority_vote").resolved_actions = [] := by
  decide

/-- C2 (amended): an action targeting a device claimed by exactly one
proposed action across all agent decisions is included in the resolved
actions of `priority_weighted`, `safety_first` and `energy_balance`
(`majority_vote` instead drops it — its fixed ≥ 2-vote threshold is not
met by a single proposal; see the counterexample). -/
theorem singly_claimed_device_resolved (ads : List AgentDecision) (a : DeviceAction)
    (h : (ads.flatMap (fun d => d.decisions)).filter
        (fun x => x.device_id = a.device_id) = [a]) :
    a ∈ (priority_weighted_resolution ads).resolved_actions ∧
    a ∈ (safety_first_resolution ads).resolved_actions ∧
    a ∈ (energy_balance_resolution ads).resolved_actions := by
  have hPW : a ∈ (priority_weighted_resolution ads).resolved_actions := by
    have hlift : (lookupGroup (groupFold (candidateStream ads)) a.device_id).map
        (fun c => c.action)
        = (ads.flatMap (fun d => d.decisions)).filter
            (fun x => x.device_id = a.device_id) := by
      rw [lookupGroup_groupFold]
      simp [candidateStream, List.filter_flatMap, List.map_flatMap, List.map_map,
        List.filter_map, Function.comp_def, List.map_id']
    rw [h] at hlift
    cases hl : lookupGroup (groupFold (candidateStream ads)) a.device_id with
    | nil => rw [hl] at hlift; exact absurd hlift (by simp)
    | cons c cs =>
        cases cs with
        | cons c2 cs2 => rw [hl] at hlift; exact absurd hlift (by simp)
        | nil =>
            rw [hl] at hlift
            simp only [List.map_cons, List.map_nil, List.cons.injEq, and_true] at hlift
            have hne : lookupGroup (groupFold (candidateStream ads)) a.device_id ≠ [] := by
              rw [hl]; simp
            have hmem := lookupGroup_mem _ _ hne
            rw [hl] at hmem
            have hres : (priority_weighted_resolution ads).resolved_actions
                = ((groupFold (candidateStream ads)).map
                    (fun g => resolveDeviceGroup g.1 g.2)).flatMap Prod.fst := rfl
            rw [hres]
            refine List.mem_flatMap.mpr ⟨resolveDeviceGroup a.device_id [c], ?_, ?_⟩
            · exact List.mem_map.mpr ⟨(a.device_id, [c]), hmem, rfl⟩
            · show a ∈ [c.action]
              rw [hlift]
              exact List.mem_singleton.mpr rfl
  have hSF : a ∈ (safety_first_resolution ads).resolved_actions := by
    have hperm : ((stableSortBy (fun y x =>
        safetyIndex y.agent_type ≤ safetyIndex x.agent_type) ads).flatMap
          (fun d => d.decisions)).Perm (ads.flatMap (fun d => d.decisions)) :=
      List.Perm.flatMap_right _ (stableSortBy_perm _ ads)
    have hfilter := hperm.filter (fun x => decide (x.device_id = a.device_id))
    rw [h] at hfilter
    have hs := List.Perm.eq_singleton hfilter
    have hres : (safety_first_resolution ads).resolved_actions
        = (claimFold ((stableSortBy (fun y x =>
            safetyIndex y.agent_type ≤ safetyIndex x.agent_type) ads).flatMap
              (fun d => d.decisions)) [] []).2 := rfl
    rw [hres]
    exact claimFold_adds _ a [] [] hs (by simp)
  have hEB : a ∈ (energy_balance_resolution ads).resolved_actions := by
    have hsplit : (energyActions ads ++ otherActions ads).Perm
        (ads.flatMap fun d => d.decisions) := by
      unfold energyActions otherActions
      rw [← List.flatMap_append]
      refine List.Perm.flatMap_right _ ?_
      have hfp := List.filter_append_perm
        (fun d => decide (d.agent_type = some "ENERGY_EFFICIENCY")) ads
      simpa [decide_not] using hfp
    have hinfilter : a ∈ (ads.flatMap (fun d => d.decisions)).filter
        (fun x => x.device_id = a.device_id) := by
      rw [h]; exact List.mem_singleton.mpr rfl
    have hmemflat : a ∈ ads.flatMap (fun d => d.decisions) :=
      List.mem_of_mem_filter hinfilter
    have hmem2 : a ∈ energyActions ads ++ otherActions ads := hsplit.mem_iff.mpr hmemflat
    have hcount : ((energyActions ads ++ otherActions ads).countP
        (fun x => decide (x.device_id = a.device_id))) = 1 := by
      rw [hsplit.countP_eq, List.countP_eq_length_filter, h]
      rfl
    have hres : (energy_balance_resolution ads).resolved_actions =
        otherActions ads ++ (energyActions ads).filter
          (fun x => x.device_id ∉ (otherActions ads).map (fun y => y.device_id)) := rfl
    rcases List.mem_append.mp hmem2 with hE | hO
    · have hcountE : 0 < (energyActions ads).countP
          (fun x => decide (x.device_id = a.device_id)) :=
        List.countP_pos_iff.mpr ⟨a, hE, decide_eq_true rfl⟩
      have hcountO : (otherActions ads).countP
          (fun x => decide (x.device_id = a.device_id)) = 0 := by
        rw [List.countP_append] at hcount
        omega
      have hnotused : a.device_id ∉ (otherActions ads).map (fun x => x.device_id) := by
        intro hc
        obtain ⟨y, hy, hyd⟩ := List.mem_map.mp hc
        have : 0 < (otherActions ads).countP
            (fun x => decide (x.device_id = a.device_id)) :=
          List.countP_pos_iff.mpr ⟨y, hy, decide_eq_true hyd⟩
        omega
      rw [hres]
      exact List.mem_append_right _ (List.mem_filter.mpr ⟨hE, decide_eq_true hnotused⟩)
    · rw [hres]
      exact List.mem_append_left _ hO
  exact ⟨hPW, hSF, hEB⟩

/-- Witness for C2 (amended): the solo comfort decision's action is
resolved by all three inclusion-preserving strategies. -/
theorem singly_claimed_device_resolved_witness :
    ({ device_id := some "hvac_1", action := some "turn_on" } : DeviceAction) ∈
      (priority_weighted_resolution [soloDecision]).resolved_actions ∧
    ({ device_id := some "hvac_1", action := some "turn_on" } : DeviceAction) ∈
      (safety_first_resolution [soloDecision]).resolved_actions ∧
    ({ device_id := some "hvac_1", action := some "turn_on" } : DeviceAction) ∈
      (energy_balance_resolution [soloDecision]).resolved_actions :=
  singly_claimed_device_resolved [soloDecision]
    { device_id := some "hvac_1", action := some "turn_on" } (by decide)

/-- The generic (unknown-metric) SLO of the C4 counterexample. -/
def customSLO : SLO :=
  { name := "Custom", metric := "foo", target_value := some 1, weight := 1 }

/-- Counterexample to C4 as stated: a negative sensor reading fed to the
generic evaluator (`min(1, actual/target)` with `actual = -1`,
`target = 1`) yields a per-SLO compliance score of −1, and the weighted
aggregate `overall_compliance` is −1 as well — both outside [0, 1]. -/
theorem generic_slo_negative_score :
    ((evaluate_room_slos (fun x => x * x) {} ⟨[("foo", -1)]⟩ [] [customSLO]).map
        (fun ev => ev.overall_compliance)) = some (-1) ∧
    ((evaluate_room_slos (fun x => x * x) {} ⟨[("foo", -1)]⟩ [] [customSLO]).map
        (fun ev => ev.slo_results.map (fun r => r.compliance_score))) = some [-1] := by
  have hev : evaluate_room_slos (fun x => x * x) {} ⟨[("foo", -1)]⟩ [] [customSLO] =
      some { overall_compliance := -1,
             slo_results := [{ slo_name := "Custom", metric := "foo",
                               compliance_score := -1, priority := "low" }],
             violations := [{ slo_name := "Custom", severity := "critical" }],
             scores := { comfort := 1, energy := 1, security := 1, environmental := -1 } } := by
    simp [evaluate_room_slos, evalLoop, evaluate_single_slo, evaluate_generic_slo,
      SensorData.get, totalWeight, customSLO, violation_severity,
      calculate_category_scores, categoryMean, metricCategory,
      (by norm_num : (0:ℚ) < 1), (by norm_num : ((-1:ℚ)) < 8/10),
      (by norm_num : ((-1:ℚ)) < 3/10)]
  rw [hev]
  exact ⟨rfl, rfl⟩

/-- C3: under `energy_balance` every action of a decision the resolver
classifies as non-energy (`agent_type ≠ 'ENERGY_EFFICIENCY'`) is
resolved unconditionally, an energy-classified action not also proposed
by a non-energy decision is resolved iff its device is unclaimed by
non-energy actions, and — the case mismatch — the energy agent's actual
emitted type string `AgentType.ENERGY_EFFICIENCY.value =
"energy_efficiency"` is classified as non-energy, so its actions pass
through unconditionally. -/
theorem energy_balance_spec (ads : List AgentDecision) :
    (∀ a ∈ otherActions ads,
        a ∈ (energy_balance_resolution ads).resolved_actions) ∧
    (∀ a ∈ energyActions ads, a ∉ otherActions ads →
        (a ∈ (energy_balance_resolution ads).resolved_actions ↔
          a.device_id ∉ (otherActions ads).map (fun x => x.device_id))) ∧
    AgentType.ENERGY_EFFICIENCY.value = "energy_efficiency" ∧
    (∀ d ∈ ads, d.agent_type = some AgentType.ENERGY_EFFICIENCY.value →
        ∀ a ∈ d.decisions, a ∈ otherActions ads) := by
  have hres : (energy_balance_resolution ads).resolved_actions =
      otherActions ads ++ (energyActions ads).filter
        (fun a => a.device_id ∉ (otherActions ads).map (fun x => x.device_id)) := rfl
  refine ⟨?_, ?_, rfl, ?_⟩
  · intro a ha
    rw [hres]
    exact List.mem_append_left _ ha
  · intro a ha hnot
    rw [hres, List.mem_append]
    constructor
    · intro h
      rcases h with h | h
      · exact absurd h hnot
      · exact of_decide_eq_true (List.mem_filter.mp h).2
    · intro h
      exact Or.inr (List.mem_filter.mpr ⟨ha, decide_eq_true h⟩)
  · intro d hd htype a ha
    refine List.mem_flatMap.mpr ⟨d, List.mem_filter.mpr ⟨hd, ?_⟩, ha⟩
    refine decide_eq_true ?_
    rw [htype]
    intro hc
    have : AgentType.ENERGY_EFFICIENCY.value = "ENERGY_EFFICIENCY" :=
      Option.some_injective _ hc
    exact absurd this (by decide)

/-- Witness for C3: a round where a comfort agent and the energy agent
(emitting `"energy_efficiency"`) both target the same device. -/
theorem energy_balance_spec_witness :
    ({ device_id := some "hvac_1", action := some "turn_off" } : DeviceAction) ∈
      otherActions
        [{ agent_type := some "energy_efficiency"
           decisions := [{ device_id := some "hvac_1", action := some "turn_off" }] },
         soloDecision] :=
  (energy_balance_spec
      [{ agent_type := some "energy_efficiency"
         decisions := [{ device_id := some "hvac_1", action := some "turn_off" }] },
       soloDecision]).2.2.2
    { agent_type := some "energy_efficiency"
      decisions := [{ device_id := some "hvac_1", action := some "turn_off" }] }
    (by decide) rfl
    { device_id := some "hvac_1", action := some "turn_off" } (by decide)

/-- C6: with a nonempty agent-decision list (and an evaluation that does
not itself raise), the scorer returns
`slo_score×0.7 + agent_confidence×0.3 − min(0.1, 0.02·|actions|)`
clamped to [0,1]; the result is never negative and never above 1. -/
theorem score_decision_plan_formula (pow15 : ℚ → ℚ) (plan : DecisionPlan)
    (current_state : WorldState) (slos : List SLO) (ev : Evaluation)
    (hne : plan.agent_decisions ≠ [])
    (hev : evaluate_room_slos pow15 (simulate_plan_impact plan current_state).room_data
        (simulate_plan_impact plan current_state).sensor_data
        (simulate_plan_impact plan current_state).devices slos = some ev) :
    ∃ scored, score_decision_plan pow15 plan current_state slos = some scored ∧
      scored.score = max 0 (min 1 (ev.overall_compliance * (7/10)
        + ((plan.agent_decisions.map (fun d => d.confidence.getD (5/10))).sum
            / (plan.agent_decisions.length : ℚ)) * (3/10)
        - min (1/10) ((plan.actions.length : ℚ) * (2/100)))) ∧
      0 ≤ scored.score ∧ scored.score ≤ 1 := by
  simp only [score_decision_plan]
  rw [hev]
  cases hd : plan.agent_decisions with
  | nil => exact absurd hd hne
  | cons d ds =>
      refine ⟨_, rfl, rfl, le_max_left _ _, ?_⟩
      exact max_le (by norm_num) (min_le_left _ _)

/-- Witness for C6: one comfort decision (confidence 0.8), empty SLO
list, no actions: the score is `0×0.7 + 0.8×0.3 − 0 = 0.24`. -/
theorem score_decision_plan_formula_witness :
    ∃ scored, score_decision_plan (fun x => x * x)
        { plan_id := "p", agent_decisions := [soloDecision] } {} [] = some scored ∧
      scored.score = max 0 (min 1
        ((({ overall_compliance := 0, slo_results := [], violations := [],
             scores := { comfort := 1, energy := 1, security := 1,
                         environmental := 1 } } : Evaluation)).overall_compliance * (7/10)
        + ((([soloDecision].map (fun d => d.confidence.getD (5/10))).sum
            / (([soloDecision] : List AgentDecision).length : ℚ)) * (3/10))
        - min (1/10) (((({ plan_id := "p", agent_decisions := [soloDecision] } :
            DecisionPlan)).actions.length : ℚ) * (2/100)))) ∧
      0 ≤ scored.score ∧ scored.score ≤ 1 :=
  score_decision_plan_formula (fun x => x * x)
    { plan_id := "p", agent_decisions := [soloDecision] } {} []
    { overall_compliance := 0, slo_results := [], violations := [],
      scores := { comfort := 1, energy := 1, security := 1, environmental := 1 } }
    (by simp)
    (by simp [simulate_plan_impact, simulate_environmental_response,
      evaluate_room_slos, evalLoop, totalWeight, calculate_category_scores,
      categoryMean])

/-- The temperature evaluator's score is within [0,1] for every input. -/
theorem temperature_comfort_bounds (slo : SLO) (sd : SensorData) :
    0 ≤ (evaluate_temperature_comfort slo sd).compliance_score ∧
      (evaluate_temperature_comfort slo sd).compliance_score ≤ 1 := by
  unfold evaluate_temperature_comfort
  dsimp only
  split_ifs with h1 h2
  · norm_num
  · refine ⟨le_max_left _ _, max_le (by norm_num) ?_⟩
    have : 0 ≤ (slo.config.min_temp.getD 22 - sd.get "temperature" 22) / 5 :=
      div_nonneg (by linarith) (by norm_num)
    linarith
  · refine ⟨le_max_left _ _, max_le (by norm_num) ?_⟩
    have hgt : slo.config.max_temp.getD 24 < sd.get "temperature" 22 := by
      rcases not_and_or.mp h1 with h | h
      · exact absurd (not_lt.mp h2) h
      · exact not_le.mp h
    have : 0 ≤ (sd.get "temperature" 22 - slo.config.max_temp.getD 24) / 5 :=
      div_nonneg (by linarith) (by norm_num)
    linarith

/-- The energy evaluator's score is within [0,1] whenever it returns. -/
theorem energy_efficiency_bounds (slo : SLO) (sd : SensorData)
    (devices : List Device) (r : SLOResult)
    (hr : evaluate_energy_efficiency slo sd devices = some r) :
    0 ≤ r.compliance_score ∧ r.compliance_score ≤ 1 := by
  unfold evaluate_energy_efficiency at hr
  dsimp only at hr
  rcases Option.map_eq_some'.mp hr with ⟨s, hs, hfr⟩
  rw [← hfr]
  dsimp only
  by_cases ho : sd.get "occupancy" 0 = 0
  · rw [if_pos ho] at hs
    by_cases hd : ((devices.filter (fun d => d.status = some "ON")).length : ℚ) ≤
        slo.config.max_devices_unoccupied.getD 1
    · rw [if_pos hd] at hs
      rw [← Option.some.inj hs]
      norm_num
    · rw [if_neg hd] at hs
      by_cases ht : ((devices.length : ℚ)) = 0
      · rw [if_pos ht] at hs
        exact absurd hs (by simp)
      · rw [if_neg ht] at hs
        rw [← Option.some.inj hs]
        refine ⟨le_max_left _ _, max_le (by norm_num) ?_⟩
        have htot : (0:ℚ) < (devices.length : ℚ) :=
          lt_of_le_of_ne (by positivity) (Ne.symm ht)
        have hdon : slo.config.max_devices_unoccupied.getD 1 <
            ((devices.filter (fun d => d.status = some "ON")).length : ℚ) := not_le.mp hd
        have : 0 ≤ (((devices.filter (fun d => d.status = some "ON")).length : ℚ)
            - slo.config.max_devices_unoccupied.getD 1) / (devices.length : ℚ) :=
          div_nonneg (by linarith) htot.le
        linarith
  · rw [if_neg ho] at hs
    by_cases ha : (if (0:ℚ) < (devices.length : ℚ) then
        ((devices.filter (fun d => d.status = some "ON")).length : ℚ) / (devices.length : ℚ)
        else 0) ≤ min 1 (sd.get "occupancy" 0 / 5) + 2/10
    · rw [if_pos ha] at hs
      rw [← Option.some.inj hs]
      norm_num
    · rw [if_neg ha] at hs
      rw [← Option.some.inj hs]
      refine ⟨le_max_left _ _, max_le (by norm_num) ?_⟩
      have := not_le.mp ha
      linarith

/-- The security-lighting evaluator's score is within [0,1]. -/
theorem security_lighting_bounds (slo : SLO) (devices : List Device) :
    0 ≤ (evaluate_security_lighting slo devices).compliance_score ∧
      (evaluate_security_lighting slo devices).compliance_score ≤ 1 := by
  unfold evaluate_security_lighting
  dsimp only
  split_ifs with h1 h2
  · norm_num
  · constructor
    · exact div_nonneg (by positivity) h2.le
    · exact le_of_lt ((div_lt_one h2).mpr (not_le.mp h1))
  · norm_num

/-- The CO2 evaluator's score is within [0,1], given that the modelled
`x ** 1.5` maps nonnegatives to nonnegatives (true of the float power on
the positive excursions it is applied to). -/
theorem air_quality_co2_bounds (pow15 : ℚ → ℚ)
    (hpow : ∀ x, 0 ≤ x → 0 ≤ pow15 x) (slo : SLO) (sd : SensorData) :
    0 ≤ (evaluate_air_quality_co2 pow15 slo sd).compliance_score ∧
      (evaluate_air_quality_co2 pow15 slo sd).compliance_score ≤ 1 := by
  unfold evaluate_air_quality_co2
  dsimp only
  split_ifs with h1
  · norm_num
  · refine ⟨le_max_left _ _, max_le (by norm_num) ?_⟩
    have hx : 0 ≤ (sd.get "co2" 400 - slo.config.max_co2.getD 800) / 1000 :=
      div_nonneg (by linarith [not_le.mp h1]) (by norm_num)
    have := hpow _ hx
    linarith

/-- The occupancy-optimization evaluator's score is within [0,1]. -/
theorem occupancy_optimization_bounds (slo : SLO) (sd : SensorData)
    (devices : List Device) :
    0 ≤ (evaluate_occupancy_optimization slo sd devices).compliance_score ∧
      (evaluate_occupancy_optimization slo sd devices).compliance_score ≤ 1 := by
  unfold evaluate_occupancy_optimization
  dsimp only
  split_ifs <;> norm_num

/-- The humidity evaluator's score is within [0,1]. -/
theorem humidity_control_bounds (slo : SLO) (sd : SensorData) :
    0 ≤ (evaluate_humidity_control slo sd).compliance_score ∧
      (evaluate_humidity_control slo sd).compliance_score ≤ 1 := by
  unfold evaluate_humidity_control
  dsimp only
  split_ifs with h1 h2
  · norm_num
  · refine ⟨le_max_left _ _, max_le (by norm_num) ?_⟩
    have : 0 ≤ (slo.config.min_humidity.getD 40 - sd.get "humidity" 50) / 30 :=
      div_nonneg (by linarith) (by norm_num)
    linarith
  · refine ⟨le_max_left _ _, max_le (by norm_num) ?_⟩
    have hgt : slo.config.max_humidity.getD 60 < sd.get "humidity" 50 := by
      rcases not_and_or.mp h1 with h | h
      · exact absurd (not_lt.mp h2) h
      · exact not_le.mp h
    have : 0 ≤ (sd.get "humidity" 50 - slo.config.max_humidity.getD 60) / 30 :=
      div_nonneg (by linarith) (by norm_num)
    linarith

/-- The emergency-readiness evaluator's score is within [0,1]. -/
theorem emergency_readiness_bounds (slo : SLO) (devices : List Device) :
    0 ≤ (evaluate_emergency_readiness slo devices).compliance_score ∧
      (evaluate_emergency_readiness slo devices).compliance_score ≤ 1 := by
  unfold evaluate_emergency_readiness
  dsimp only
  split_ifs with h1 h2
  · norm_num
  · constructor
    · exact div_nonneg (by positivity) h2.le
    · exact le_of_lt ((div_lt_one h2).mpr (not_le.mp h1))
  · norm_num

/-- The generic evaluator's score is within [0,1] provided the consulted
sensor reading is nonnegative (the original claim's failure point). -/
theorem generic_slo_bounds (slo : SLO) (sd : SensorData)
    (hval : 0 ≤ sd.get slo.metric 0) :
    0 ≤ (evaluate_generic_slo slo sd).compliance_score ∧
      (evaluate_generic_slo slo sd).compliance_score ≤ 1 := by
  unfold evaluate_generic_slo
  dsimp only
  split_ifs with ht he
  · exact ⟨le_min (by norm_num) (div_nonneg hval ht.le), min_le_left _ _⟩
  · norm_num
  · norm_num

/-- Per-SLO bounds through the metric dispatcher. -/
theorem single_slo_bounds (pow15 : ℚ → ℚ)
    (hpow : ∀ x, 0 ≤ x → 0 ≤ pow15 x) (slo : SLO) (sd : SensorData)
    (devices : List Device) (r : SLOResult)
    (hgen : slo.metric ∉ knownMetrics → 0 ≤ sd.get slo.metric 0)
    (hr : evaluate_single_slo pow15 slo sd devices = some r) :
    0 ≤ r.compliance_score ∧ r.compliance_score ≤ 1 := by
  unfold evaluate_single_slo at hr
  split_ifs at hr with h1 h2 h3 h4 h5 h6 h7
  · simp only [Option.some.injEq] at hr
    rw [← hr]; exact temperature_comfort_bounds slo sd
  · exact energy_efficiency_bounds slo sd devices r hr
  · simp only [Option.some.injEq] at hr
    rw [← hr]; exact security_lighting_bounds slo devices
  · simp only [Option.some.injEq] at hr
    rw [← hr]; exact air_quality_co2_bounds pow15 hpow slo sd
  · simp only [Option.some.injEq] at hr
    rw [← hr]; exact occupancy_optimization_bounds slo sd devices
  · simp only [Option.some.injEq] at hr
    rw [← hr]; exact humidity_control_bounds slo sd
  · simp only [Option.some.injEq] at hr
    rw [← hr]; exact emergency_readiness_bounds slo devices
  · simp only [Option.some.injEq] at hr
    rw [← hr]
    refine generic_slo_bounds slo sd (hgen ?_)
    simp only [knownMetrics, List.mem_cons, List.not_mem_nil, or_false, not_or]
    exact ⟨h1, h2, h3, h4, h5, h6, h7⟩

/-- Active head contributes its weight. -/
theorem totalWeight_cons_active (slo : SLO) (rest : List SLO)
    (h : slo.active = true) :
    totalWeight (slo :: rest) = slo.weight + totalWeight rest := by
  simp [totalWeight, List.filter_cons, h]

/-- Inactive head contributes nothing. -/
theorem totalWeight_cons_inactive (slo : SLO) (rest : List SLO)
    (h : slo.active = false) :
    totalWeight (slo :: rest) = totalWeight rest := by
  simp [totalWeight, List.filter_cons, h]

/-- Invariant of the evaluation loop: every collected score is in [0,1]
and the running weighted sum stays between 0 and the total active
weight. -/
theorem evalLoop_bounds (pow15 : ℚ → ℚ) (hpow : ∀ x, 0 ≤ x → 0 ≤ pow15 x)
    (sd : SensorData) (devices : List Device) :
    ∀ (slos : List SLO) (rs : List SLOResult) (vs : List Violation) (w : ℚ),
      (∀ slo ∈ slos, 0 ≤ slo.weight) →
      (∀ slo ∈ slos, slo.metric ∉ knownMetrics → 0 ≤ sd.get slo.metric 0) →
      evalLoop pow15 sd devices slos = some (rs, vs, w) →
      (∀ r ∈ rs, 0 ≤ r.compliance_score ∧ r.compliance_score ≤ 1) ∧
      0 ≤ w ∧ w ≤ totalWeight slos := by
  intro slos
  induction slos with
  | nil =>
      intro rs vs w _ _ hloop
      simp only [evalLoop, Option.some.injEq, Prod.mk.injEq] at hloop
      obtain ⟨h1, h2, h3⟩ := hloop
      refine ⟨?_, ?_, ?_⟩
      · intro r hr; rw [← h1] at hr; exact absurd hr (List.not_mem_nil r)
      · rw [← h3]
      · rw [← h3]; simp [totalWeight]
  | cons slo rest ih =>
      intro rs vs w hw hgen hloop
      have hw' : ∀ s ∈ rest, 0 ≤ s.weight :=
        fun s hs => hw s (List.mem_cons_of_mem _ hs)
      have hgen' : ∀ s ∈ rest, s.metric ∉ knownMetrics → 0 ≤ sd.get s.metric 0 :=
        fun s hs => hgen s (List.mem_cons_of_mem _ hs)
      unfold evalLoop at hloop
      by_cases hact : slo.active = true
      · rw [if_pos hact] at hloop
        cases hsingle : evaluate_single_slo pow15 slo sd devices with
        | none => rw [hsingle] at hloop; exact absurd hloop (by simp)
        | some result =>
            rw [hsingle] at hloop
            cases hrest : evalLoop pow15 sd devices rest with
            | none => rw [hrest] at hloop; exact absurd hloop (by simp)
            | some triple =>
                obtain ⟨rs', vs', w'⟩ := triple
                rw [hrest] at hloop
                simp only [Option.some.injEq, Prod.mk.injEq] at hloop
                obtain ⟨hrs, _, hw0⟩ := hloop
                obtain ⟨hall', hw1, hw2⟩ := ih rs' vs' w' hw' hgen' hrest
                have hres_b := single_slo_bounds pow15 hpow slo sd devices result
                  (hgen slo (List.mem_cons_self _ _)) hsingle
                have hwslo : 0 ≤ slo.weight := hw slo (List.mem_cons_self _ _)
                refine ⟨?_, ?_, ?_⟩
                · intro r hr
                  rw [← hrs] at hr
                  rcases List.mem_cons.mp hr with hre | hr'
                  · rw [hre]; exact hres_b
                  · exact hall' r hr'
                · rw [← hw0]
                  have := mul_nonneg hres_b.1 hwslo
                  linarith
                · rw [← hw0, totalWeight_cons_active slo rest hact]
                  have hsw : result.compliance_score * slo.weight ≤ slo.weight :=
                    mul_le_of_le_one_left hwslo hres_b.2
                  linarith
      · rw [if_neg hact] at hloop
        obtain ⟨hall, hw1, hw2⟩ := ih rs vs w hw' hgen' hloop
        refine ⟨hall, hw1, ?_⟩
        rwa [totalWeight_cons_inactive slo rest (Bool.not_eq_true _ ▸ hact)]

/-- C4 (amended): all per-SLO compliance scores and the aggregated
`overall_compliance` lie in [0,1], provided the sensor readings consulted
by generic/unknown-metric SLOs are nonnegative and SLO weights are
nonnegative (as the data model declares); an empty or all-inactive SLO
list yields `overall_compliance = 0` exactly.  (The unamended claim is
refuted by `generic_slo_negative_score`.) -/
theorem compliance_bounds (pow15 : ℚ → ℚ)
    (hpow : ∀ x, 0 ≤ x → 0 ≤ pow15 x) (room_data : RoomData)
    (sd : SensorData) (devices : List Device) (slos : List SLO) (ev : Evaluation)
    (hw : ∀ slo ∈ slos, 0 ≤ slo.weight)
    (hgen : ∀ slo ∈ slos, slo.metric ∉ knownMetrics → 0 ≤ sd.get slo.metric 0)
    (hev : evaluate_room_slos pow15 room_data sd devices slos = some ev) :
    (∀ r ∈ ev.slo_results, 0 ≤ r.compliance_score ∧ r.compliance_score ≤ 1) ∧
    0 ≤ ev.overall_compliance ∧ ev.overall_compliance ≤ 1 ∧
    ((∀ slo ∈ slos, slo.active = false) → ev.overall_compliance = 0) := by
  unfold evaluate_room_slos at hev
  cases hloop : evalLoop pow15 sd devices slos with
  | none => rw [hloop] at hev; exact absurd hev (by simp)
  | some triple =>
      obtain ⟨rs, vs, w⟩ := triple
      rw [hloop] at hev
      simp only [Option.map_some', Option.some.injEq] at hev
      obtain ⟨hall, hw0, hw1⟩ :=
        evalLoop_bounds pow15 hpow sd devices slos rs vs w hw hgen hloop
      refine ⟨?_, ?_, ?_, ?_⟩
      · rw [← hev]; exact hall
      · rw [← hev]
        dsimp only
        split_ifs with hT
        · exact div_nonneg hw0 hT.le
        · exact le_refl 0
      · rw [← hev]
        dsimp only
        split_ifs with hT
        · exact (div_le_one hT).mpr hw1
        · norm_num
      · intro hinact
        have hT0 : totalWeight slos = 0 := by
          unfold totalWeight
          rw [List.filter_eq_nil_iff.mpr (fun s hs => by
            rw [hinact s hs]; exact Bool.false_ne_true)]
          rfl
        rw [← hev]
        dsimp only
        rw [hT0]
        norm_num

/-- The evaluation of the empty SLO list over the empty state: no
results, zero compliance, the optimistic category default 1
everywhere. -/
def emptyEvaluation : Evaluation :=
  { overall_compliance := 0, slo_results := [], violations := [],
    scores := { comfort := 1, energy := 1, security := 1, environmental := 1 } }

/-- Witness for C4 (amended): the empty SLO list over the empty state —
no per-SLO results, `overall_compliance = 0` within bounds. -/
theorem compliance_bounds_witness :
    (∀ r ∈ emptyEvaluation.slo_results,
      0 ≤ r.compliance_score ∧ r.compliance_score ≤ 1) ∧
    0 ≤ emptyEvaluation.overall_compliance ∧
    emptyEvaluation.overall_compliance ≤ 1 ∧
    ((∀ slo ∈ ([] : List SLO), slo.active = false) →
      emptyEvaluation.overall_compliance = 0) :=
  compliance_bounds (fun x => x * x) (fun x hx => mul_nonneg hx hx) {} ⟨[]⟩ [] []
    emptyEvaluation (by simp) (by simp)
    (by simp [evaluate_room_slos, evalLoop, totalWeight, emptyEvaluation,
      calculate_category_scores, categoryMean])

/-- `buildPlans` yields exactly one plan per requested strategy. -/
theorem buildPlans_length (pow15 : ℚ → ℚ) (ts : String)
    (ads : List AgentDecision) (context : WorldState) (slos : List SLO) :
    ∀ (strategies : List String) (built : List DecisionPlan),
      buildPlans pow15 ts ads context slos strategies = some built →
      built.length = strategies.length := by
  intro strategies
  induction strategies with
  | nil =>
      intro built h
      simp only [buildPlans, Option.some.injEq] at h
      rw [← h]
      rfl
  | cons s rest ih =>
      intro built h
      unfold buildPlans at h
      cases h1 : buildPlan pow15 ts ads context slos s with
      | none => rw [h1] at h; exact absurd h (by simp)
      | some plan =>
          rw [h1] at h
          cases h2 : buildPlans pow15 ts ads context slos rest with
          | none => rw [h2] at h; exact absurd h (by simp)
          | some plans =>
              rw [h2] at h
              simp only [Option.some.injEq] at h
              rw [← h, List.length_cons, ih plans h2, List.length_cons]

/-- `mapWithIndexFrom` preserves length. -/
theorem length_mapWithIndexFrom {α β : Type} (f : Nat → α → β) :
    ∀ (i : Nat) (l : List α), (mapWithIndexFrom f i l).length = l.length := by
  intro i l
  induction l generalizing i with
  | nil => rfl
  | cons x xs ih => simp [mapWithIndexFrom, ih]

/-- Indexing into `mapWithIndexFrom`. -/
theorem getElem?_mapWithIndexFrom {α β : Type} (f : Nat → α → β) :
    ∀ (n : Nat) (l : List α) (i : Nat),
      (mapWithIndexFrom f n l)[i]? = l[i]?.map (f (n + i)) := by
  intro n l
  induction l generalizing n with
  | nil => intro i; simp [mapWithIndexFrom]
  | cons x xs ih =>
      intro i
      cases i with
      | zero => simp [mapWithIndexFrom]
      | succ j =>
          have hred : mapWithIndexFrom f n (x :: xs)
              = f n x :: mapWithIndexFrom f (n + 1) xs := rfl
          rw [hred, List.getElem?_cons_succ, List.getElem?_cons_succ, ih (n + 1) j]
          have harith : n + 1 + j = n + (j + 1) := by omega
          rw [harith]

/-- Membership in `mapWithIndexFrom` comes from an indexed element. -/
theorem mem_mapWithIndexFrom {α β : Type} (f : Nat → α → β) :
    ∀ (n : Nat) (l : List α) (q : β), q ∈ mapWithIndexFrom f n l →
      ∃ i x, l[i]? = some x ∧ q = f (n + i) x := by
  intro n l
  induction l generalizing n with
  | nil => intro q hq; exact absurd hq (List.not_mem_nil q)
  | cons x xs ih =>
      intro q hq
      rcases List.mem_cons.mp hq with hq0 | hq'
      · refine ⟨0, x, by simp, ?_⟩
        rw [hq0]
        rfl
      · obtain ⟨i, y, hy, hqy⟩ := ih (n + 1) q hq'
        refine ⟨i + 1, y, by simpa using hy, ?_⟩
        rw [hqy]
        have harith : n + 1 + i = n + (i + 1) := by omega
        rw [harith]

/-- Pairwise transfer through `mapWithIndexFrom`, for a relation the map
respects at every pair of indices. -/
theorem pairwise_mapWithIndexFrom {α β : Type} (f : Nat → α → β)
    (R : β → β → Prop) (S : α → α → Prop)
    (hf : ∀ i j x y, S x y → R (f i x) (f j y)) :
    ∀ (n : Nat) (l : List α), List.Pairwise S l →
      List.Pairwise R (mapWithIndexFrom f n l) := by
  intro n l
  induction l generalizing n with
  | nil => intro _; exact List.Pairwise.nil
  | cons x xs ih =>
      intro h
      rcases List.pairwise_cons.mp h with ⟨hx, hxs⟩
      refine List.pairwise_cons.mpr ⟨?_, ih (n + 1) hxs⟩
      intro q hq
      obtain ⟨i, y, hy, hqy⟩ := mem_mapWithIndexFrom f (n + 1) xs q hq
      rw [hqy]
      exact hf _ _ _ _ (hx y (List.getElem?_mem hy))

/-- Annotating recommendations changes neither scores nor plan ids, so
each exact-score class keeps its identity and order. -/
theorem addRec_filter_map (t : Nat) (c : ℚ) :
    ∀ (n : Nat) (l : List DecisionPlan),
      ((mapWithIndexFrom (addRecommendation t) n l).filter
          (fun p => p.score = c)).map (fun p => p.plan_id)
        = (l.filter (fun p => p.score = c)).map (fun p => p.plan_id) := by
  intro n l
  induction l generalizing n with
  | nil => rfl
  | cons x xs ih =>
      show ((addRecommendation t n x :: mapWithIndexFrom (addRecommendation t) (n+1) xs).filter
          (fun p => p.score = c)).map (fun p => p.plan_id) = _
      rw [List.filter_cons, List.filter_cons]
      have hsc : (addRecommendation t n x).score = x.score := rfl
      by_cases hc : x.score = c
      · rw [if_pos (decide_eq_true (hsc.trans hc)), if_pos (decide_eq_true hc),
          List.map_cons, List.map_cons, ih (n + 1)]
        rfl
      · rw [if_neg (by simpa [hsc] using hc), if_neg (by simpa using hc)]
        exact ih (n + 1)

/-- The rank annotation is the 1-based position. -/
theorem addRecommendation_rank (t i : Nat) (p : DecisionPlan) :
    (addRecommendation t i p).metadata.rank = some (i + 1) := by
  simp only [addRecommendation]
  cases p.slo_compliance <;> split_ifs <;> rfl

/-- The execution recommendation follows the fixed thresholds. -/
theorem addRecommendation_rec (t i : Nat) (p : DecisionPlan) :
    (addRecommendation t i p).metadata.execution_recommendation =
      some (if 9/10 ≤ p.score ∧ 85/100 ≤ p.confidence then "AUTO"
            else if 7/10 ≤ p.score ∧ 7/10 ≤ p.confidence then "REVIEW"
            else "MANUAL") := by
  simp only [addRecommendation]
  cases p.slo_compliance <;> split_ifs <;> rfl

/-- C8: `coordinate_decisions` over N requested strategies yields
exactly N plans, sorted by score descending, stable on exact score ties
(each exact-score class lists the same plan ids in the same order as the
strategy-submission-ordered build), with 1-based ranks and the fixed
AUTO/REVIEW/MANUAL thresholds in each plan's metadata. -/
theorem coordinate_decisions_spec (pow15 : ℚ → ℚ) (ts : String)
    (ads : List AgentDecision) (context : WorldState) (slos : List SLO)
    (strategies : List String) (built : List DecisionPlan)
    (hbuild : buildPlans pow15 ts ads context slos strategies = some built) :
    ∃ plans, coordinate_decisions pow15 ts ads context slos (some strategies)
        = some plans ∧
      plans.length = strategies.length ∧
      List.Pairwise (fun p q => q.score ≤ p.score) plans ∧
      (∀ c : ℚ, (plans.filter (fun p => p.score = c)).map (fun p => p.plan_id)
          = (built.filter (fun p => p.score = c)).map (fun p => p.plan_id)) ∧
      (∀ i p, plans[i]? = some p → p.metadata.rank = some (i + 1)) ∧
      (∀ p ∈ plans, p.metadata.execution_recommendation =
        some (if 9/10 ≤ p.score ∧ 85/100 ≤ p.confidence then "AUTO"
              else if 7/10 ≤ p.score ∧ 7/10 ≤ p.confidence then "REVIEW"
              else "MANUAL")) := by
  have htot : ∀ a b : DecisionPlan, (fun y x => decide (x.score ≤ y.score)) a b = false →
      (fun y x => decide (x.score ≤ y.score)) b a = true := by
    intro a b h
    exact decide_eq_true (le_of_lt (not_le.mp (of_decide_eq_false h)))
  have htrans : ∀ a b c : DecisionPlan,
      (fun y x => decide (x.score ≤ y.score)) a b = true →
      (fun y x => decide (x.score ≤ y.score)) b c = true →
      (fun y x => decide (x.score ≤ y.score)) a c = true := by
    intro a b c h1 h2
    exact decide_eq_true (le_trans (of_decide_eq_true h2) (of_decide_eq_true h1))
  have hco : coordinate_decisions pow15 ts ads context slos (some strategies)
      = some (add_execution_recommendations (sortPlansDesc built)) := by
    simp only [coordinate_decisions, Option.getD_some, hbuild, Option.map_some']
  refine ⟨_, hco, ?_, ?_, ?_, ?_, ?_⟩
  · show (mapWithIndexFrom _ 0 (sortPlansDesc built)).length = _
    rw [length_mapWithIndexFrom,
      show sortPlansDesc built = stableSortBy
        (fun y x => decide (x.score ≤ y.score)) built from rfl,
      (stableSortBy_perm (fun y x => decide (x.score ≤ y.score)) built).length_eq]
    exact buildPlans_length pow15 ts ads context slos strategies built hbuild
  · refine pairwise_mapWithIndexFrom _ _
      (fun p q => q.score ≤ p.score) ?_ 0 (sortPlansDesc built) ?_
    · intro i j x y h
      exact h
    · have hp := stableSortBy_pairwise (fun y x => decide (x.score ≤ y.score))
        htot htrans built
      exact hp.imp (fun h => of_decide_eq_true h)
  · intro c
    show ((mapWithIndexFrom _ 0 (sortPlansDesc built)).filter _).map _ = _
    rw [addRec_filter_map]
    have hstable := stableSortBy_filter (fun y x => decide (x.score ≤ y.score))
      (fun p => decide (p.score = c)) htot htrans ?_ built
    · rw [show sortPlansDesc built = stableSortBy
        (fun y x => decide (x.score ≤ y.score)) built from rfl, hstable]
    · intro a b ha hb
      have h1 : a.score = c := of_decide_eq_true ha
      have h2 : ¬ a.score ≤ b.score := of_decide_eq_false hb
      refine decide_eq_false ?_
      intro hbc
      exact h2 (by rw [hbc, ← h1])
  · intro i p hp
    rw [show add_execution_recommendations (sortPlansDesc built)
      = mapWithIndexFrom (addRecommendation (sortPlansDesc built).length) 0
          (sortPlansDesc built) from rfl] at hp
    rw [getElem?_mapWithIndexFrom] at hp
    cases hx : (sortPlansDesc built)[i]? with
    | none => rw [hx] at hp; exact absurd hp (by simp)
    | some x =>
        rw [hx] at hp
        simp only [Option.map_some', Option.some.injEq] at hp
        rw [← hp]
        have h0 : (0:Nat) + i = i := by omega
        rw [h0]
        exact addRecommendation_rank _ i x
  · intro p hp
    obtain ⟨i, x, _, hpx⟩ := mem_mapWithIndexFrom
      (addRecommendation (sortPlansDesc built).length) 0 (sortPlansDesc built) p hp
    rw [hpx]
    have hsc : (addRecommendation (sortPlansDesc built).length (0 + i) x).score
        = x.score := rfl
    have hcf : (addRecommendation (sortPlansDesc built).length (0 + i) x).confidence
        = x.confidence := rfl
    rw [hsc, hcf]
    exact addRecommendation_rec _ _ x

/-- The plan the coordinator builds for the `majority_vote` strategy
from the solo comfort decision over the empty state: the single vote is
below the threshold, so the plan is empty-actioned with score
`0×0.7 + 0.8×0.3 = 0.24`. -/
def mvPlan : DecisionPlan :=
  { plan_id := "majority_vote_t", agent_decisions := [soloDecision],
    slo_compliance := some emptyEvaluation,
    metadata := { resolution_strategy := some "majority_vote",
                  conflicts_resolved := some 0, total_actions := some 0 },
    score := 6/25, confidence := 4/5, actions := [],
    reasoning := "Plan resolved using majority_vote strategy with 0 actions" }

/-- Witness for C8: coordinating the solo decision with the single
strategy `majority_vote`. -/
theorem coordinate_decisions_spec_witness :
    ∃ plans, coordinate_decisions (fun x => x * x) "t" [soloDecision] {} []
        (some ["majority_vote"]) = some plans ∧
      plans.length = (["majority_vote"] : List String).length ∧
      List.Pairwise (fun p q => q.score ≤ p.score) plans ∧
      (∀ c : ℚ, (plans.filter (fun p => p.score = c)).map (fun p => p.plan_id)
          = ([mvPlan].filter (fun p => p.score = c)).map (fun p => p.plan_id)) ∧
      (∀ i p, plans[i]? = some p → p.metadata.rank = some (i + 1)) ∧
      (∀ p ∈ plans, p.metadata.execution_recommendation =
        some (if 9/10 ≤ p.score ∧ 85/100 ≤ p.confidence then "AUTO"
              else if 7/10 ≤ p.score ∧ 7/10 ≤ p.confidence then "REVIEW"
              else "MANUAL")) :=
  coordinate_decisions_spec (fun x => x * x) "t" [soloDecision] {} []
    ["majority_vote"] [mvPlan]
    (by
      simp [buildPlans, buildPlan, resolve_conflicts, majority_vote_resolution,
        tallyVotes, score_decision_plan, simulate_plan_impact,
        simulate_environmental_response, evaluate_room_slos, evalLoop, totalWeight,
        calculate_category_scores, categoryMean, soloDecision, emptyEvaluation,
        voteKey, pyStr, mvPlan]
      norm_num
      rfl)

end BuildSense
